import Mathlib

set_option maxRecDepth 100000

/-!
# RPMC engine of `SampleCode/QSPI_Authentication_Flash/rpmc.c`

A shallow embedding of the Replay-Protected Monotonic Counter driver.

* Bytes and words are natural numbers; every place where the C code narrows a
  value to `uint8_t` or `uint32_t` is an explicit `% 256` / `% 2 ^ 32`.
* The three file-scope buffers `g_u8Counter`, `g_u8Tag`, `g_u8Signature` and the
  trace of everything that happened on the QSPI bus form the `State`.
* The flash device is the environment: a `Device` decides the byte clocked in on
  each transfer from the whole bus history and the byte clocked out.
* `HMAC_SHA256` lives in `sha256.c`, outside this file; the digest function is a
  parameter `H` of every definition that signs.
* The busy-poll loops `while (RPMC_ReadStatus(0) & BUSY);` need not terminate, so
  the drivers that poll take a bound on the number of loop iterations and return
  `none` when it is exhausted.
-/

namespace Rpmc

/-! ## Constants of `rpmc.c` -/

def DEF_COUNTER_LEN : Nat := 4
def DEF_TAG_LEN : Nat := 12
def DEF_SIGNATURE_LEN : Nat := 32
def DEF_RPMC_INSTRUCTION : Nat := 0x9B
def DEF_RPMC_READ_STATUS : Nat := 0x96

def CMDTYPE_WRITE_ROOTKEY : Nat := 0
def CMDTYPE_UPDATE_HMACKEY : Nat := 1
def CMDTYPE_INCREASE_COUNTER : Nat := 2
def CMDTYPE_REQUEST_COUNTER : Nat := 3

/-- Modelled from the spec: the macro `AF_REG_STATUS_BUSY` comes from `rpmc.h`, which is
not part of the sources at hand; the spec's StatusWord has "bit0 = busy", and
`RPMC_WriteRootKey` polls with the literal `0x01` in the same place. -/
def AF_REG_STATUS_BUSY : Nat := 0x01

/-! ## Machine integers -/

/-- Conversion to `uint8_t`. -/
def u8 (x : Nat) : Nat := x % 256

/-- Conversion to `uint32_t`. -/
def u32 (x : Nat) : Nat := x % 2 ^ 32

/-- The expression `u32CntAddr - 1` in `uint32_t` arithmetic. -/
def subOne32 (x : Nat) : Nat := (u32 x + (2 ^ 32 - 1)) % 2 ^ 32

/-- Wrap-around of a mathematical integer into the range of a 32-bit `int`. -/
def wrapInt32 (x : Int) : Int := (x + 2 ^ 31) % 2 ^ 32 - 2 ^ 31

/-- Conversion of an `int` to `uint32_t`. -/
def intToU32 (x : Int) : Nat := (x % 2 ^ 32).toNat

/-! ## Buffers -/

/-- The `n` bytes found at a `uint8_t *`: elements `0 .. n-1` of the buffer. -/
def readBuf (buf : List Nat) (n : Nat) : List Nat :=
  (List.range n).map (fun i => buf.getD i 0)

/-- The function `memcmp(a, b, n)` on byte buffers: zero when the first `n` bytes agree, otherwise
the difference of the first pair of bytes that differ. -/
def memcmp : List Nat → List Nat → Nat → Int
  | _, _, 0 => 0
  | a, b, n + 1 =>
    if a.headD 0 = b.headD 0 then memcmp a.tail b.tail n
    else (a.headD 0 : Int) - (b.headD 0 : Int)

/-! ## Crypto collaborator -/

/-- The call `HMAC_SHA256(key, keyLen, msg, msgLen, out)`: the digest function `H` of `sha256.c`
applied to the `keyLen` key bytes and the `msgLen` message bytes; the result is what the call
leaves in the 32-byte `uint8_t` output buffer. -/
def HMAC_SHA256 (H : List Nat → List Nat → List Nat)
    (key : List Nat) (keyLen : Nat) (msg : List Nat) (msgLen : Nat) : List Nat :=
  (readBuf (H (readBuf key keyLen) (readBuf msg msgLen)) 32).map u8

/-! ## Transport collaborator and engine state -/

/-- What can be observed on the bus. -/
inductive Event where
  | csLow
  | csHigh
  | xfer (tx rx : Nat)
  deriving DecidableEq

/-- The flash device: given the bus history and the byte clocked out, the content of the
receive register after the transfer. -/
abbrev Device := List Event → Nat → Nat

/-- The file-scope buffers of `rpmc.c` and the bus trace, oldest event first. -/
structure State where
  g_u8Counter : List Nat
  g_u8Tag : List Nat
  g_u8Signature : List Nat
  bus : List Event
  deriving DecidableEq

/-- The macro `RPMC_CS_LOW()`. -/
def RPMC_CS_LOW (s : State) : State := { s with bus := s.bus ++ [Event.csLow] }

/-- The macro `RPMC_CS_HIGH()`. -/
def RPMC_CS_HIGH (s : State) : State := { s with bus := s.bus ++ [Event.csHigh] }

/-- The function `uint8_t RPMC_ByteTransfer(uint8_t DI)`. -/
def RPMC_ByteTransfer (dev : Device) (DI : Nat) (s : State) : Nat × State :=
  let tx := u8 DI
  let rx := u8 (dev s.bus tx)
  (rx, { s with bus := s.bus ++ [Event.xfer tx rx] })

/-- The loop `for (i = 0; i < n; i++) RPMC_ByteTransfer(buf[i]);` over the bytes `buf`. -/
def sendBytes (dev : Device) : List Nat → State → State
  | [], s => s
  | b :: bs, s => sendBytes dev bs (RPMC_ByteTransfer dev b s).2

/-- The loop `for (i = 0; i < n; i++) buf[i] = RPMC_ByteTransfer(0x00);`: the bytes received
and the state after the loop. -/
def recvBytes (dev : Device) : Nat → State → List Nat × State
  | 0, s => ([], s)
  | n + 1, s =>
    let r := RPMC_ByteTransfer dev 0x00 s
    let rest := recvBytes dev n r.2
    (r.1 :: rest.1, rest.2)

/-! ## The engine -/

/-- The function `uint32_t RPMC_ReadCounter(void)`: the expression is evaluated in `int` (the bytes are
promoted), wrapping at 32 bits, and converted to `uint32_t` on return. -/
def RPMC_ReadCounter (s : State) : Nat :=
  let b0 : Int := s.g_u8Counter.getD 0 0
  let b1 : Int := s.g_u8Counter.getD 1 0
  let b2 : Int := s.g_u8Counter.getD 2 0
  let b3 : Int := s.g_u8Counter.getD 3 0
  let e1 := wrapInt32 (wrapInt32 (b0 * 0x100) + b1)
  let e2 := wrapInt32 (wrapInt32 (e1 * 0x100) + b2)
  let e3 := wrapInt32 (wrapInt32 (e2 * 0x100) + b3)
  intToU32 e3

/-- The function `uint32_t RPMC_ReadStatus(uint32_t u32ChkoutFlag)`. -/
def RPMC_ReadStatus (dev : Device) (u32ChkoutFlag : Nat) (s : State) : Nat × State :=
  let s0 := RPMC_CS_LOW s
  let s1 := (RPMC_ByteTransfer dev DEF_RPMC_READ_STATUS s0).2
  let s2 := (RPMC_ByteTransfer dev 0x00 s1).2
  let r := RPMC_ByteTransfer dev 0x00 s2
  let u32RPMCStatus := r.1 &&& 0xFF
  let s3 :=
    if u32ChkoutFlag ≠ 0 then
      let t := recvBytes dev DEF_TAG_LEN r.2
      let c := recvBytes dev DEF_COUNTER_LEN t.2
      let g := recvBytes dev DEF_SIGNATURE_LEN c.2
      { g.2 with g_u8Tag := t.1, g_u8Counter := c.1, g_u8Signature := g.1 }
    else r.2
  (u32RPMCStatus, RPMC_CS_HIGH s3)

/-- The function `void RPMC_RequestCounter(u32CntAddr, pu8HMACKey, pu8InTag)`. -/
def RPMC_RequestCounter (H : List Nat → List Nat → List Nat) (dev : Device)
    (u32CntAddr : Nat) (pu8HMACKey pu8InTag : List Nat) (s : State) : State :=
  let u8Message : List Nat :=
    [DEF_RPMC_INSTRUCTION, CMDTYPE_REQUEST_COUNTER, u8 (subOne32 u32CntAddr), 0x00]
      ++ readBuf pu8InTag (16 - 4)
  let sig := HMAC_SHA256 H pu8HMACKey 32 u8Message 16
  let s0 : State := { s with g_u8Signature := sig }
  let s1 := RPMC_CS_LOW s0
  let s2 := sendBytes dev u8Message s1
  let s3 := sendBytes dev (readBuf s2.g_u8Signature DEF_SIGNATURE_LEN) s2
  RPMC_CS_HIGH s3

/-- The loop `while ((u32RPMCStatus = RPMC_ReadStatus(0)) & mask);` with at most `fuel` iterations:
the last status read and the state after it, or `none` when the device is still busy after
`fuel` reads. -/
def waitDone (dev : Device) (mask : Nat) : Nat → State → Option (Nat × State)
  | 0, _ => none
  | fuel + 1, s =>
    let r := RPMC_ReadStatus dev 0 s
    if r.1 &&& mask ≠ 0 then waitDone dev mask fuel r.2 else some r

/-- The function `uint32_t RPMC_WriteRootKey(u32CntAddr, pu8RootKey)`, its frame only: everything up to the
`RPMC_CS_HIGH()` that precedes the busy poll. -/
def RPMC_WriteRootKey_frame (H : List Nat → List Nat → List Nat) (dev : Device)
    (u32CntAddr : Nat) (pu8RootKey : List Nat) (s : State) : State :=
  let u8Message : List Nat :=
    [DEF_RPMC_INSTRUCTION, CMDTYPE_WRITE_ROOTKEY, u8 (subOne32 u32CntAddr), 0x00]
  let sig := HMAC_SHA256 H pu8RootKey 32 u8Message 4
  let s0 : State := { s with g_u8Signature := sig }
  let s1 := RPMC_CS_LOW s0
  let s2 := sendBytes dev u8Message s1
  let s3 := sendBytes dev (readBuf pu8RootKey 32) s2
  let s4 := sendBytes dev (readBuf (s3.g_u8Signature.drop 4) 28) s3
  RPMC_CS_HIGH s4

/-- The function `uint32_t RPMC_WriteRootKey(u32CntAddr, pu8RootKey)`. -/
def RPMC_WriteRootKey (H : List Nat → List Nat → List Nat) (dev : Device) (fuel : Nat)
    (u32CntAddr : Nat) (pu8RootKey : List Nat) (s : State) : Option (Nat × State) :=
  waitDone dev 0x01 fuel (RPMC_WriteRootKey_frame H dev u32CntAddr pu8RootKey s)

/-- The function `uint32_t RPMC_UpdateHMACKey(u32CntAddr, pu8RootKey, pu8HMAC, pu8HMACKey)`, its frame only:
everything up to the `RPMC_CS_HIGH()` that precedes the busy poll. The first component is the
content of the caller's `pu8HMACKey` buffer. -/
def RPMC_UpdateHMACKey_frame (H : List Nat → List Nat → List Nat) (dev : Device)
    (u32CntAddr : Nat) (pu8RootKey pu8HMAC : List Nat) (s : State) : List Nat × State :=
  let u8Message : List Nat :=
    [DEF_RPMC_INSTRUCTION, CMDTYPE_UPDATE_HMACKEY, u8 (subOne32 u32CntAddr), 0x00]
      ++ readBuf pu8HMAC 4
  let pu8HMACKey := HMAC_SHA256 H pu8RootKey 32 pu8HMAC 4
  let sig := HMAC_SHA256 H pu8HMACKey 32 u8Message 8
  let s0 : State := { s with g_u8Signature := sig }
  let s1 := RPMC_CS_LOW s0
  let s2 := sendBytes dev u8Message s1
  let s3 := sendBytes dev (readBuf s2.g_u8Signature 32) s2
  (pu8HMACKey, RPMC_CS_HIGH s3)

/-- The function `uint32_t RPMC_UpdateHMACKey(u32CntAddr, pu8RootKey, pu8HMAC, pu8HMACKey)`: the status
returned, the key left in `pu8HMACKey`, and the state. -/
def RPMC_UpdateHMACKey (H : List Nat → List Nat → List Nat) (dev : Device) (fuel : Nat)
    (u32CntAddr : Nat) (pu8RootKey pu8HMAC : List Nat) (s : State) :
    Option (Nat × List Nat × State) :=
  let f := RPMC_UpdateHMACKey_frame H dev u32CntAddr pu8RootKey pu8HMAC s
  match waitDone dev AF_REG_STATUS_BUSY fuel f.2 with
  | none => none
  | some r => some (r.1, f.1, r.2)

/-- The second half of `RPMC_IncreaseCounter`, from the line `u8Message[0] = DEF_RPMC_INSTRUCTION` to the
`RPMC_CS_HIGH()` that precedes the last busy poll: the Increase frame built from `g_u8Counter`. -/
def RPMC_IncreaseCounter_frame (H : List Nat → List Nat → List Nat) (dev : Device)
    (u32CntAddr : Nat) (pu8HMACKey : List Nat) (s : State) : State :=
  let u8Message : List Nat :=
    [DEF_RPMC_INSTRUCTION, CMDTYPE_INCREASE_COUNTER, u8 (subOne32 u32CntAddr), 0x00]
      ++ readBuf s.g_u8Counter DEF_COUNTER_LEN
  let sig := HMAC_SHA256 H pu8HMACKey 32 u8Message 8
  let s0 : State := { s with g_u8Signature := sig }
  let s1 := RPMC_CS_LOW s0
  let s2 := sendBytes dev u8Message s1
  let s3 := sendBytes dev (readBuf s2.g_u8Signature 32) s2
  RPMC_CS_HIGH s3

/-- The function `uint32_t RPMC_IncreaseCounter(u32CntAddr, pu8HMACKey, pu8InTag)`. -/
def RPMC_IncreaseCounter (H : List Nat → List Nat → List Nat) (dev : Device) (fuel : Nat)
    (u32CntAddr : Nat) (pu8HMACKey pu8InTag : List Nat) (s : State) : Option (Nat × State) :=
  let s1 := RPMC_RequestCounter H dev u32CntAddr pu8HMACKey pu8InTag s
  match waitDone dev 0x01 fuel s1 with
  | none => none
  | some r =>
    let s3 := (RPMC_ReadStatus dev 1 r.2).2
    waitDone dev AF_REG_STATUS_BUSY fuel (RPMC_IncreaseCounter_frame H dev u32CntAddr pu8HMACKey s3)

/-- The function `int32_t RPMC_Challenge(u32CntAddr, pu8HMACKey, pu8InTag)`. -/
def RPMC_Challenge (H : List Nat → List Nat → List Nat) (dev : Device) (fuel : Nat)
    (u32CntAddr : Nat) (pu8HMACKey pu8InTag : List Nat) (s : State) : Option (Int × State) :=
  let s1 := RPMC_RequestCounter H dev u32CntAddr pu8HMACKey pu8InTag s
  match waitDone dev AF_REG_STATUS_BUSY fuel s1 with
  | none => none
  | some r =>
    let s3 := (RPMC_ReadStatus dev 1 r.2).2
    let u8Message : List Nat :=
      readBuf s3.g_u8Tag DEF_TAG_LEN ++ readBuf s3.g_u8Counter DEF_COUNTER_LEN
    let u8VerifySignature := HMAC_SHA256 H pu8HMACKey 32 u8Message 16
    some (memcmp u8VerifySignature s3.g_u8Signature 32, s3)

/-- The function `void RPMC_CreateRootKey(pu8ID, u32IDLen, pu8Rootkey)`: the content of the 32-byte
output buffer `pu8Rootkey`. -/
def RPMC_CreateRootKey (H : List Nat → List Nat → List Nat)
    (pu8ID : List Nat) (u32IDLen : Nat) : List Nat :=
  let u8RootKeyTag : List Nat := List.replicate 32 0
  let u8RootKeyTag := u8RootKeyTag.set 0 (u8 'N'.toNat)
  let u8RootKeyTag := u8RootKeyTag.set 1 (u8 'u'.toNat)
  let u8RootKeyTag := u8RootKeyTag.set 2 (u8 'v'.toNat)
  let u8RootKeyTag := u8RootKeyTag.set 3 (u8 'o'.toNat)
  let u8RootKeyTag := u8RootKeyTag.set 4 (u8 't'.toNat)
  let u8RootKeyTag := u8RootKeyTag.set 5 (u8 'o'.toNat)
  let u8RootKeyTag := u8RootKeyTag.set 6 (u8 'n'.toNat)
  HMAC_SHA256 H pu8ID u32IDLen u8RootKeyTag 32

/-! ## Describing runs -/

/-- The state after `i` consecutive status-only reads `RPMC_ReadStatus(0)`. -/
def afterReads (dev : Device) : Nat → State → State
  | 0, s => s
  | i + 1, s => afterReads dev i (RPMC_ReadStatus dev 0 s).2

/-- The status word the device gives to the status-only read number `i` (counted from 0) of a
run of such reads that starts in `s`. -/
def statusAt (dev : Device) (i : Nat) (s : State) : Nat :=
  (RPMC_ReadStatus dev 0 (afterReads dev i s)).1

/-- The device's busy phase after `s` ends: it answers the first `n` status reads with bit 0
set and the next one with bit 0 clear. -/
def busyPhase (dev : Device) (n : Nat) (s : State) : Prop :=
  (∀ i, i < n → statusAt dev i s % 2 = 1) ∧ statusAt dev n s % 2 = 0

/-- The bus events of one chip-select window in which the bytes `tx` are clocked out while the bytes
`rx` are clocked in. -/
def frame (tx rx : List Nat) : List Event :=
  Event.csLow :: (List.zipWith Event.xfer tx rx ++ [Event.csHigh])

/-- The bus events of a run of status-only reads, one window `0x96, 0x00, 0x00` for each triple of
received bytes. -/
def statusFrames : List (Nat × Nat × Nat) → List Event
  | [] => []
  | r :: rs => frame [0x96, 0x00, 0x00] [r.1, r.2.1, r.2.2] ++ statusFrames rs

/-- Every element of a buffer is a byte. -/
def isBytes (l : List Nat) : Prop := ∀ b ∈ l, b < 256

/-- A device that plays back a fixed script: transfer number `i` of the whole run receives element
`i` of the script, and zero once the script is exhausted. -/
def scripted (script : List Nat) : Device :=
  fun bus _ => script.getD (bus.filter (fun e => e != Event.csLow && e != Event.csHigh)).length 0

/-- A stand-in digest used to exercise the theorems on concrete inputs: byte `i` of the output is
the sum of the key, the message and `i`. -/
def toyH : List Nat → List Nat → List Nat :=
  fun key msg => (List.range 32).map (fun i => key.sum + msg.sum + i)

/-- The state at power-up: zeroed buffers, nothing yet on the bus. -/
def initState : State :=
  { g_u8Counter := List.replicate 4 0, g_u8Tag := List.replicate 12 0,
    g_u8Signature := List.replicate 32 0, bus := [] }

instance (dev : Device) (n : Nat) (s : State) : Decidable (busyPhase dev n s) :=
  inferInstanceAs (Decidable ((∀ i, i < n → statusAt dev i s % 2 = 1) ∧ statusAt dev n s % 2 = 0))

instance (l : List Nat) : Decidable (isBytes l) :=
  inferInstanceAs (Decidable (∀ b ∈ l, b < 256))

/-! ## Concrete inputs -/

/-- A 32-byte key `01 02 .. 20`. -/
def key0 : List Nat := (List.range 32).map (fun i => i + 1)

/-- The 12-byte tag `00 01 .. 0B`. -/
def tag0 : List Nat := List.range 12

/-- A 4-byte seed. -/
def seed0 : List Nat := [0xDE, 0xAD, 0xBE, 0xEF]

/-- A 4-byte counter value with the top bit set. -/
def cnt0 : List Nat := [0x80, 0x00, 0x01, 0x02]

/-- A device that is busy for one status read after a Request Counter frame and then answers the
checkout with `tag0`, `cnt0` and the matching signature under `key0`. -/
def devMatch : Device :=
  scripted (List.replicate 48 0 ++ [0, 0, 1, 0, 0, 0, 0, 0, 0] ++ tag0 ++ cnt0 ++
    HMAC_SHA256 toyH key0 32 (tag0 ++ cnt0) 16)

/-- A device for an Update HMAC Key followed by a Challenge: ready at the first status read after
the Update frame, busy for one status read after the Request Counter frame, then answering the
checkout with `tag0`, `cnt0` and their signature under the key derived from root key `key0` and
seed `seed0`. -/
def devRoundTrip : Device :=
  scripted (List.replicate 40 0 ++ [0, 0, 0] ++ List.replicate 48 0 ++
    [0, 0, 1, 0, 0, 0, 0, 0, 0] ++ tag0 ++ cnt0 ++
    HMAC_SHA256 toyH (HMAC_SHA256 toyH key0 32 seed0 4) 32 (tag0 ++ cnt0) 16)

/-- A device for an Increase Counter: busy for one status read after the Request Counter frame,
answering the checkout with counter `cnt0`, then busy for two status reads after the Increase
frame. -/
def devIncrease : Device :=
  scripted (List.replicate 48 0 ++ [0, 0, 1, 0, 0, 0, 0, 0, 0] ++ tag0 ++ cnt0 ++
    List.replicate 32 0 ++ List.replicate 40 0 ++ [0, 0, 1, 0, 0, 3, 0, 0, 0x10])

/-- A device that answers the three status reads after a Write Root Key frame with `01`, `81` and
then `12`: busy twice, then ready with other status bits set. -/
def devBusyTwice : Device :=
  scripted (List.replicate 64 0 ++ [0, 0, 0x01, 0, 0, 0x81, 0, 0, 0x12])

/-- An 8-byte device identity, the length of a flash UID. -/
def uid0 : List Nat := [0xD1, 0x65, 0x04, 0x3B, 0x10, 0x22, 0x33, 0x44]

/-- A second 12-byte tag, different from `tag0`. -/
def tag1 : List Nat := List.replicate 12 0xAA

/-- A device that stays busy for ever once a Write Root Key header `9B 00` has been sent, and
otherwise answers every transfer with `10`: ready, with another status bit set. -/
def devStuckAfterWrite : Device :=
  fun bus _ =>
    if (bus.filter (fun e => e != Event.csLow && e != Event.csHigh)).take 2 =
        [Event.xfer 0x9B 0x10, Event.xfer 0x00 0x10] then 0x11 else 0x10

/-! ## Buffers, digests and comparison -/

theorem readBuf_length (l : List Nat) (n : Nat) : (readBuf l n).length = n := by
  simp [readBuf]

theorem readBuf_of_length (l : List Nat) (n : Nat) (h : l.length = n) : readBuf l n = l := by
  apply List.ext_getElem
  · simp [readBuf, h]
  · intro i h1 h2
    simp [readBuf, List.getD_eq_getElem?_getD, List.getElem?_eq_getElem h2]

theorem HMAC_SHA256_length (H : List Nat → List Nat → List Nat) (k : List Nat) (kl : Nat)
    (m : List Nat) (ml : Nat) : (HMAC_SHA256 H k kl m ml).length = 32 := by
  simp [HMAC_SHA256, readBuf]

theorem HMAC_SHA256_isBytes (H : List Nat → List Nat → List Nat) (k : List Nat) (kl : Nat)
    (m : List Nat) (ml : Nat) : isBytes (HMAC_SHA256 H k kl m ml) := by
  intro b hb
  simp only [HMAC_SHA256, List.mem_map] at hb
  obtain ⟨a, _, rfl⟩ := hb
  exact Nat.mod_lt _ (by decide)

theorem memcmp_eq_zero_iff (n : Nat) : ∀ (a b : List Nat), a.length = n → b.length = n →
    (memcmp a b n = 0 ↔ a = b) := by
  induction n with
  | zero =>
    intro a b ha hb
    simp [memcmp, List.length_eq_zero.mp ha, List.length_eq_zero.mp hb]
  | succ n ih =>
    intro a b ha hb
    match a, b, ha, hb with
    | x :: a, y :: b, ha, hb =>
      simp only [List.length_cons, Nat.add_right_cancel_iff] at ha hb
      by_cases hxy : x = y
      · simp [memcmp, hxy, ih a b ha hb]
      · have : (x : Int) - (y : Int) ≠ 0 := by omega
        simp [memcmp, hxy, this]

theorem sendBytes_spec (dev : Device) : ∀ (txs : List Nat) (s : State), isBytes txs →
    ∃ rx, rx.length = txs.length ∧
      sendBytes dev txs s = { s with bus := s.bus ++ List.zipWith Event.xfer txs rx } := by
  intro txs
  induction txs with
  | nil => intro s _; exact ⟨[], rfl, by simp [sendBytes]⟩
  | cons b bs ih =>
    intro s hb
    have hb0 : b < 256 := hb b (by simp)
    have hbs : isBytes bs := fun x hx => hb x (by simp [hx])
    obtain ⟨rx, hlen, heq⟩ := ih (RPMC_ByteTransfer dev b s).2 hbs
    refine ⟨u8 (dev s.bus b) :: rx, by simp [hlen], ?_⟩
    rw [sendBytes, heq]
    simp [RPMC_ByteTransfer, u8, Nat.mod_eq_of_lt hb0]

/-! ## Transfers and status reads -/

theorem recvBytes_spec (dev : Device) : ∀ (n : Nat) (s : State),
    ∃ rx, rx.length = n ∧ isBytes rx ∧
      recvBytes dev n s =
        (rx, { s with bus := s.bus ++ List.zipWith Event.xfer (List.replicate n 0) rx }) := by
  intro n
  induction n with
  | zero => intro s; exact ⟨[], rfl, by simp [isBytes], by simp [recvBytes]⟩
  | succ n ih =>
    intro s
    obtain ⟨rx, hlen, hby, heq⟩ := ih (RPMC_ByteTransfer dev 0 s).2
    refine ⟨u8 (dev s.bus 0) :: rx, by simp [hlen], ?_, ?_⟩
    · intro b hb
      rcases List.mem_cons.mp hb with h | h
      · rw [h]; exact Nat.mod_lt _ (by decide)
      · exact hby b h
    · rw [recvBytes, heq]
      simp [RPMC_ByteTransfer, u8, List.replicate_succ]

theorem and_ff_of_lt (x : Nat) (h : x < 256) : x &&& 0xFF = x :=
  Nat.and_pow_two_sub_one_of_lt_two_pow (n := 8) h

theorem readStatus_head (dev : Device) (s : State) :
    ∃ r0 r1 st, st < 256 ∧
      RPMC_ByteTransfer dev 0x00 (RPMC_ByteTransfer dev 0x00
          (RPMC_ByteTransfer dev DEF_RPMC_READ_STATUS (RPMC_CS_LOW s)).2).2 =
        (st, { s with bus := s.bus ++
          [Event.csLow, Event.xfer 0x96 r0, Event.xfer 0x00 r1, Event.xfer 0x00 st] }) := by
  refine ⟨u8 (dev (s.bus ++ [Event.csLow]) 0x96),
    u8 (dev (s.bus ++ [Event.csLow, Event.xfer 0x96 (u8 (dev (s.bus ++ [Event.csLow]) 0x96))]) 0),
    u8 (dev (s.bus ++ [Event.csLow, Event.xfer 0x96 (u8 (dev (s.bus ++ [Event.csLow]) 0x96)),
      Event.xfer 0 (u8 (dev (s.bus ++ [Event.csLow,
        Event.xfer 0x96 (u8 (dev (s.bus ++ [Event.csLow]) 0x96))]) 0))]) 0),
    Nat.mod_lt _ (by decide), ?_⟩
  simp [RPMC_ByteTransfer, RPMC_CS_LOW, DEF_RPMC_READ_STATUS]
  simp [u8]

theorem RPMC_ReadStatus_zero (dev : Device) (s : State) :
    ∃ r0 r1 st, st < 256 ∧
      RPMC_ReadStatus dev 0 s =
        (st, { s with bus := s.bus ++ frame [0x96, 0x00, 0x00] [r0, r1, st] }) := by
  obtain ⟨r0, r1, st, hst, h⟩ := readStatus_head dev s
  refine ⟨r0, r1, st, hst, ?_⟩
  simp only [RPMC_ReadStatus, h]
  simp [RPMC_CS_HIGH, frame, and_ff_of_lt st hst]

theorem RPMC_ReadStatus_checkout (dev : Device) (f : Nat) (hf : f ≠ 0) (s : State) :
    ∃ r0 r1 st tag cnt sig, st < 256 ∧ tag.length = 12 ∧ cnt.length = 4 ∧ sig.length = 32 ∧
      isBytes tag ∧ isBytes cnt ∧ isBytes sig ∧
      RPMC_ReadStatus dev f s =
        (st, { g_u8Counter := cnt, g_u8Tag := tag, g_u8Signature := sig,
               bus := s.bus ++ frame ([0x96, 0x00, 0x00] ++ List.replicate 48 0)
                 ([r0, r1, st] ++ (tag ++ cnt ++ sig)) }) := by
  obtain ⟨r0, r1, st, hst, h⟩ := readStatus_head dev s
  obtain ⟨tag, htl, htb, ht⟩ := recvBytes_spec dev 12
    { s with bus := s.bus ++
      [Event.csLow, Event.xfer 0x96 r0, Event.xfer 0x00 r1, Event.xfer 0x00 st] }
  obtain ⟨cnt, hcl, hcb, hc⟩ := recvBytes_spec dev 4
    { s with bus := s.bus ++
        [Event.csLow, Event.xfer 0x96 r0, Event.xfer 0x00 r1, Event.xfer 0x00 st] ++
        List.zipWith Event.xfer (List.replicate 12 0) tag }
  obtain ⟨sig, hsl, hsb, hs⟩ := recvBytes_spec dev 32
    { s with bus := s.bus ++
        [Event.csLow, Event.xfer 0x96 r0, Event.xfer 0x00 r1, Event.xfer 0x00 st] ++
        List.zipWith Event.xfer (List.replicate 12 0) tag ++
        List.zipWith Event.xfer (List.replicate 4 0) cnt }
  refine ⟨r0, r1, st, tag, cnt, sig, hst, htl, hcl, hsl, htb, hcb, hsb, ?_⟩
  simp only [RPMC_ReadStatus, h, if_pos hf, DEF_TAG_LEN, DEF_COUNTER_LEN, DEF_SIGNATURE_LEN]
  simp only [ht, hc, hs]
  have e1 : List.replicate 48 0 = List.replicate 12 0 ++ (List.replicate 4 0 ++ List.replicate 32 0) := by
    decide
  simp only [RPMC_CS_HIGH, frame, and_ff_of_lt st hst, e1, List.append_assoc]
  rw [List.zipWith_append _ _ _ _ _ (by simp), List.zipWith_append _ _ _ _ _ (by simp [htl]),
    List.zipWith_append _ _ _ _ _ (by simp [hcl])]
  simp

/-! ## Busy polling -/

theorem afterReads_succ (dev : Device) : ∀ (n : Nat) (s : State),
    afterReads dev (n + 1) s = (RPMC_ReadStatus dev 0 (afterReads dev n s)).2 := by
  intro n
  induction n with
  | zero => intro s; rfl
  | succ n ih => intro s; exact ih (RPMC_ReadStatus dev 0 s).2

theorem busyPhase_succ (dev : Device) (n : Nat) (s : State) (h : busyPhase dev (n + 1) s) :
    (RPMC_ReadStatus dev 0 s).1 % 2 = 1 ∧ busyPhase dev n (RPMC_ReadStatus dev 0 s).2 :=
  ⟨h.1 0 (Nat.succ_pos n), fun i hi => h.1 (i + 1) (Nat.succ_lt_succ hi), h.2⟩

theorem waitDone_of_busyPhase (dev : Device) : ∀ (n fuel : Nat) (s : State),
    busyPhase dev n s → n < fuel →
      waitDone dev 0x01 fuel s = some (statusAt dev n s, afterReads dev (n + 1) s) := by
  intro n
  induction n with
  | zero =>
    intro fuel s h hf
    obtain ⟨fuel, rfl⟩ := Nat.exists_eq_succ_of_ne_zero (Nat.ne_of_gt hf)
    have h0 : (RPMC_ReadStatus dev 0 s).1 % 2 = 0 := h.2
    simp [waitDone, h0, statusAt, afterReads]
  | succ n ih =>
    intro fuel s h hf
    obtain ⟨fuel, rfl⟩ := Nat.exists_eq_succ_of_ne_zero (Nat.not_eq_zero_of_lt hf)
    obtain ⟨h1, h2⟩ := busyPhase_succ dev n s h
    have := ih fuel (RPMC_ReadStatus dev 0 s).2 h2 (Nat.lt_of_succ_lt_succ hf)
    simp [waitDone, h1, this, statusAt, afterReads]

theorem waitDone_some (dev : Device) : ∀ (fuel : Nat) (s : State) (st : Nat) (s' : State),
    waitDone dev 0x01 fuel s = some (st, s') →
      ∃ n, n < fuel ∧ busyPhase dev n s ∧ st = statusAt dev n s ∧
        s' = afterReads dev (n + 1) s := by
  intro fuel
  induction fuel with
  | zero => intro s st s' h; simp [waitDone] at h
  | succ fuel ih =>
    intro s st s' h
    by_cases hb : (RPMC_ReadStatus dev 0 s).1 % 2 = 1
    · simp [waitDone, hb] at h
      obtain ⟨n, hn, hp, hst, hs⟩ := ih _ _ _ h
      refine ⟨n + 1, Nat.succ_lt_succ hn, ⟨?_, hp.2⟩, hst, hs⟩
      intro i hi
      cases i with
      | zero => exact hb
      | succ i => exact hp.1 i (Nat.lt_of_succ_lt_succ hi)
    · have hb0 : (RPMC_ReadStatus dev 0 s).1 % 2 = 0 := by omega
      simp [waitDone, hb0] at h
      refine ⟨0, Nat.succ_pos _, ⟨fun i hi => absurd hi (Nat.not_lt_zero i), hb0⟩, ?_, ?_⟩
      · simp [statusAt, afterReads, h]
      · simp [afterReads, h]

/-- The trace of a run of status-only reads. -/
theorem afterReads_bus (dev : Device) : ∀ (n : Nat) (s : State),
    ∃ polls : List (Nat × Nat × Nat), polls.length = n ∧
      polls.map (fun r => r.2.2) = (List.range n).map (fun i => statusAt dev i s) ∧
      afterReads dev n s = { s with bus := s.bus ++ statusFrames polls } := by
  intro n
  induction n with
  | zero => intro s; exact ⟨[], rfl, rfl, by simp [afterReads, statusFrames]⟩
  | succ n ih =>
    intro s
    obtain ⟨r0, r1, st, _, h⟩ := RPMC_ReadStatus_zero dev s
    obtain ⟨polls, hl, hm, hs⟩ := ih (RPMC_ReadStatus dev 0 s).2
    refine ⟨(r0, r1, st) :: polls, by simp [hl], ?_, ?_⟩
    · rw [List.range_succ_eq_map]
      simp only [List.map_cons, List.map_map, hm]
      simp [statusAt, afterReads, h, Function.comp_def]
    · simp only [afterReads, hs]
      simp [h, statusFrames]

/-! ## Instruction frames -/

theorem isBytes_readBuf (l : List Nat) (n : Nat) (h : isBytes l) : isBytes (readBuf l n) := by
  intro b hb
  simp only [readBuf, List.mem_map, List.mem_range] at hb
  obtain ⟨i, _, rfl⟩ := hb
  by_cases hi : i < l.length
  · rw [List.getD_eq_getElem _ _ hi]; exact h _ (List.getElem_mem hi)
  · rw [List.getD_eq_default _ _ (Nat.le_of_not_lt hi)]; decide

theorem isBytes_append (a b : List Nat) (ha : isBytes a) (hb : isBytes b) : isBytes (a ++ b) := by
  intro x hx
  rcases List.mem_append.mp hx with h | h
  · exact ha x h
  · exact hb x h

theorem isBytes_header (c a : Nat) (hc : c < 256) :
    isBytes [DEF_RPMC_INSTRUCTION, c, u8 (subOne32 a), 0x00] := by
  intro x hx
  simp only [List.mem_cons, List.mem_singleton, List.not_mem_nil, or_false] at hx
  rcases hx with h | h | h | h
  · rw [h]; decide
  · rw [h]; exact hc
  · rw [h]; exact Nat.mod_lt _ (by decide)
  · rw [h]; decide

theorem sendBytes_append (dev : Device) : ∀ (a b : List Nat) (s : State),
    sendBytes dev (a ++ b) s = sendBytes dev b (sendBytes dev a s) := by
  intro a
  induction a with
  | nil => intro b s; rfl
  | cons x a ih => intro b s; exact ih b _

/-- One chip-select window in which the bytes `tx` are sent. -/
theorem sendWindow (dev : Device) (tx : List Nat) (s : State) (h : isBytes tx) :
    ∃ rx, rx.length = tx.length ∧
      RPMC_CS_HIGH (sendBytes dev tx (RPMC_CS_LOW s)) =
        { s with bus := s.bus ++ frame tx rx } := by
  obtain ⟨rx, hl, he⟩ := sendBytes_spec dev tx (RPMC_CS_LOW s) h
  refine ⟨rx, hl, ?_⟩
  rw [he]
  simp [RPMC_CS_HIGH, RPMC_CS_LOW, frame]

theorem sendBytes_globals (dev : Device) (tx : List Nat) (s : State) (h : isBytes tx) :
    (sendBytes dev tx s).g_u8Signature = s.g_u8Signature := by
  obtain ⟨rx, _, he⟩ := sendBytes_spec dev tx s h
  rw [he]

/-- The common shape of the signed instructions: the signature is stored in `g_u8Signature`, then
message and signature are sent in one window. -/
theorem signedFrame (dev : Device) (msg sig : List Nat) (s : State)
    (hm : isBytes msg) (hs : isBytes sig) (hl : sig.length = 32) :
    ∃ rx, rx.length = msg.length + 32 ∧
      RPMC_CS_HIGH (sendBytes dev
          (readBuf (sendBytes dev msg (RPMC_CS_LOW { s with g_u8Signature := sig })).g_u8Signature 32)
          (sendBytes dev msg (RPMC_CS_LOW { s with g_u8Signature := sig }))) =
        { s with g_u8Signature := sig, bus := s.bus ++ frame (msg ++ sig) rx } := by
  obtain ⟨rx, hrl, he⟩ := sendWindow dev (msg ++ sig) { s with g_u8Signature := sig }
    (isBytes_append _ _ hm hs)
  refine ⟨rx, by simpa [hl] using hrl, ?_⟩
  rw [sendBytes_append] at he
  rw [sendBytes_globals dev _ _ hm]
  simp only [RPMC_CS_LOW] at he ⊢
  rw [readBuf_of_length _ 32 hl, he]

theorem RPMC_RequestCounter_spec (H : List Nat → List Nat → List Nat) (dev : Device)
    (a : Nat) (k t : List Nat) (s : State) (ht : isBytes t) :
    ∃ rx, rx.length = 48 ∧
      RPMC_RequestCounter H dev a k t s =
        { s with
          g_u8Signature :=
            HMAC_SHA256 H k 32 ([0x9B, 0x03, u8 (subOne32 a), 0x00] ++ readBuf t 12) 16,
          bus := s.bus ++ frame
            (([0x9B, 0x03, u8 (subOne32 a), 0x00] ++ readBuf t 12) ++
              HMAC_SHA256 H k 32 ([0x9B, 0x03, u8 (subOne32 a), 0x00] ++ readBuf t 12) 16) rx } := by
  obtain ⟨rx, hl, he⟩ := signedFrame dev
    ([DEF_RPMC_INSTRUCTION, CMDTYPE_REQUEST_COUNTER, u8 (subOne32 a), 0x00] ++ readBuf t 12)
    (HMAC_SHA256 H k 32
      ([DEF_RPMC_INSTRUCTION, CMDTYPE_REQUEST_COUNTER, u8 (subOne32 a), 0x00] ++ readBuf t 12) 16)
    s (isBytes_append _ _ (isBytes_header _ a (by decide)) (isBytes_readBuf t 12 ht))
    (HMAC_SHA256_isBytes H k 32 _ 16) (HMAC_SHA256_length H k 32 _ 16)
  exact ⟨rx, by simpa [readBuf_length] using hl, he⟩

theorem RPMC_UpdateHMACKey_frame_spec (H : List Nat → List Nat → List Nat) (dev : Device)
    (a : Nat) (r sd : List Nat) (s : State) (hsd : isBytes sd) :
    ∃ rx, rx.length = 40 ∧
      RPMC_UpdateHMACKey_frame H dev a r sd s =
        (HMAC_SHA256 H r 32 sd 4,
         { s with
          g_u8Signature := HMAC_SHA256 H (HMAC_SHA256 H r 32 sd 4) 32
            ([0x9B, 0x01, u8 (subOne32 a), 0x00] ++ readBuf sd 4) 8,
          bus := s.bus ++ frame
            (([0x9B, 0x01, u8 (subOne32 a), 0x00] ++ readBuf sd 4) ++
              HMAC_SHA256 H (HMAC_SHA256 H r 32 sd 4) 32
                ([0x9B, 0x01, u8 (subOne32 a), 0x00] ++ readBuf sd 4) 8) rx }) := by
  obtain ⟨rx, hl, he⟩ := signedFrame dev
    ([DEF_RPMC_INSTRUCTION, CMDTYPE_UPDATE_HMACKEY, u8 (subOne32 a), 0x00] ++ readBuf sd 4)
    (HMAC_SHA256 H (HMAC_SHA256 H r 32 sd 4) 32
      ([DEF_RPMC_INSTRUCTION, CMDTYPE_UPDATE_HMACKEY, u8 (subOne32 a), 0x00] ++ readBuf sd 4) 8)
    s (isBytes_append _ _ (isBytes_header _ a (by decide)) (isBytes_readBuf sd 4 hsd))
    (HMAC_SHA256_isBytes H _ 32 _ 8) (HMAC_SHA256_length H _ 32 _ 8)
  refine ⟨rx, by simpa [readBuf_length] using hl, ?_⟩
  unfold RPMC_UpdateHMACKey_frame
  exact congrArg (Prod.mk (HMAC_SHA256 H r 32 sd 4)) he

theorem RPMC_IncreaseCounter_frame_spec (H : List Nat → List Nat → List Nat) (dev : Device)
    (a : Nat) (k : List Nat) (s : State) (hc : isBytes s.g_u8Counter) :
    ∃ rx, rx.length = 40 ∧
      RPMC_IncreaseCounter_frame H dev a k s =
        { s with
          g_u8Signature := HMAC_SHA256 H k 32
            ([0x9B, 0x02, u8 (subOne32 a), 0x00] ++ readBuf s.g_u8Counter 4) 8,
          bus := s.bus ++ frame
            (([0x9B, 0x02, u8 (subOne32 a), 0x00] ++ readBuf s.g_u8Counter 4) ++
              HMAC_SHA256 H k 32
                ([0x9B, 0x02, u8 (subOne32 a), 0x00] ++ readBuf s.g_u8Counter 4) 8) rx } := by
  obtain ⟨rx, hl, he⟩ := signedFrame dev
    ([DEF_RPMC_INSTRUCTION, CMDTYPE_INCREASE_COUNTER, u8 (subOne32 a), 0x00]
      ++ readBuf s.g_u8Counter 4)
    (HMAC_SHA256 H k 32
      ([DEF_RPMC_INSTRUCTION, CMDTYPE_INCREASE_COUNTER, u8 (subOne32 a), 0x00]
        ++ readBuf s.g_u8Counter 4) 8)
    s (isBytes_append _ _ (isBytes_header _ a (by decide)) (isBytes_readBuf _ 4 hc))
    (HMAC_SHA256_isBytes H _ 32 _ 8) (HMAC_SHA256_length H _ 32 _ 8)
  exact ⟨rx, by simpa [readBuf_length] using hl, he⟩

theorem RPMC_WriteRootKey_frame_spec (H : List Nat → List Nat → List Nat) (dev : Device)
    (a : Nat) (r : List Nat) (s : State) (hr : isBytes r) :
    ∃ rx, rx.length = 64 ∧
      RPMC_WriteRootKey_frame H dev a r s =
        { s with
          g_u8Signature := HMAC_SHA256 H r 32 [0x9B, 0x00, u8 (subOne32 a), 0x00] 4,
          bus := s.bus ++ frame
            ([0x9B, 0x00, u8 (subOne32 a), 0x00] ++ (readBuf r 32 ++
              (HMAC_SHA256 H r 32 [0x9B, 0x00, u8 (subOne32 a), 0x00] 4).drop 4)) rx } := by
  have hsl := HMAC_SHA256_length H r 32 [DEF_RPMC_INSTRUCTION, CMDTYPE_WRITE_ROOTKEY,
    u8 (subOne32 a), 0x00] 4
  have hsb := HMAC_SHA256_isBytes H r 32 [DEF_RPMC_INSTRUCTION, CMDTYPE_WRITE_ROOTKEY,
    u8 (subOne32 a), 0x00] 4
  have hm := isBytes_header CMDTYPE_WRITE_ROOTKEY a (by decide)
  have hk := isBytes_readBuf r 32 hr
  have hd : isBytes ((HMAC_SHA256 H r 32 [DEF_RPMC_INSTRUCTION, CMDTYPE_WRITE_ROOTKEY,
      u8 (subOne32 a), 0x00] 4).drop 4) := fun b hb => hsb b (List.mem_of_mem_drop hb)
  obtain ⟨rx, hl, he⟩ := sendWindow dev
    ([DEF_RPMC_INSTRUCTION, CMDTYPE_WRITE_ROOTKEY, u8 (subOne32 a), 0x00] ++ (readBuf r 32 ++
      (HMAC_SHA256 H r 32 [DEF_RPMC_INSTRUCTION, CMDTYPE_WRITE_ROOTKEY,
        u8 (subOne32 a), 0x00] 4).drop 4))
    { s with g_u8Signature := (HMAC_SHA256 H r 32 [DEF_RPMC_INSTRUCTION, CMDTYPE_WRITE_ROOTKEY,
        u8 (subOne32 a), 0x00] 4) }
    (isBytes_append _ _ hm (isBytes_append _ _ hk hd))
  refine ⟨rx, by simpa [readBuf_length, hsl] using hl, ?_⟩
  rw [sendBytes_append, sendBytes_append] at he
  unfold RPMC_WriteRootKey_frame
  simp only [sendBytes_globals dev _ _ hm, sendBytes_globals dev _ _ hk]
  simp only [RPMC_CS_LOW] at he ⊢
  rw [readBuf_of_length _ 28 (by simp [hsl]), he]
  rfl

/-! ## Challenge -/

/-- The busy poll with the mask `AF_REG_STATUS_BUSY`. -/
theorem waitDone_busy_of_busyPhase (dev : Device) (n fuel : Nat) (s : State)
    (h : busyPhase dev n s) (hf : n < fuel) :
    waitDone dev AF_REG_STATUS_BUSY fuel s = some (statusAt dev n s, afterReads dev (n + 1) s) :=
  waitDone_of_busyPhase dev n fuel s h hf

/-- What `RPMC_Challenge` returns once the device is ready. -/
theorem challenge_spec (H : List Nat → List Nat → List Nat) (dev : Device)
    (fuel n a : Nat) (k t : List Nat) (s : State)
    (hbusy : busyPhase dev n (RPMC_RequestCounter H dev a k t s)) (hfuel : n < fuel) :
    ∃ (r : Int) (s' : State),
      RPMC_Challenge H dev fuel a k t s = some (r, s') ∧
      s' = (RPMC_ReadStatus dev 1
              (afterReads dev (n + 1) (RPMC_RequestCounter H dev a k t s))).2 ∧
      s'.g_u8Tag.length = 12 ∧ s'.g_u8Counter.length = 4 ∧ s'.g_u8Signature.length = 32 ∧
      (r = 0 ↔
        s'.g_u8Signature = HMAC_SHA256 H k 32 (s'.g_u8Tag ++ s'.g_u8Counter) 16) ∧
      ((∃ i, i < 32 ∧ s'.g_u8Signature.getD i 0 ≠
          (HMAC_SHA256 H k 32 (s'.g_u8Tag ++ s'.g_u8Counter) 16).getD i 0) → r ≠ 0) := by
  obtain ⟨r0, r1, st, tag, cnt, sig, _, htl, hcl, hsl, _, _, _, hchk⟩ :=
    RPMC_ReadStatus_checkout dev 1 (by decide)
      (afterReads dev (n + 1) (RPMC_RequestCounter H dev a k t s))
  have hiff : memcmp (HMAC_SHA256 H k 32 (tag ++ cnt) 16) sig 32 = 0 ↔
      sig = HMAC_SHA256 H k 32 (tag ++ cnt) 16 := by
    rw [memcmp_eq_zero_iff 32 _ _ (HMAC_SHA256_length H k 32 _ 16) hsl]
    exact eq_comm
  refine ⟨memcmp (HMAC_SHA256 H k 32 (tag ++ cnt) 16) sig 32, _, ?_, rfl, ?_, ?_, ?_, ?_, ?_⟩
  · unfold RPMC_Challenge
    simp only [waitDone_busy_of_busyPhase dev n fuel _ hbusy hfuel, hchk,
      DEF_TAG_LEN, DEF_COUNTER_LEN, readBuf_of_length _ 12 htl, readBuf_of_length _ 4 hcl]
  · rw [hchk]; exact htl
  · rw [hchk]; exact hcl
  · rw [hchk]; exact hsl
  · rw [hchk]; exact hiff
  · rw [hchk]
    rintro ⟨i, _, hi⟩ h0
    exact hi (by rw [hiff.mp h0])

/-- C1: when the device's busy phase after the Request Counter frame ends (`n` busy status reads,
then a ready one) `RPMC_Challenge` returns, and it returns 0 exactly when the 32 signature bytes
stored by its checkout read equal the digest of the key over the 12 tag bytes followed by the 4
counter bytes stored by that same checkout read; a signature that differs from the digest in
any byte gives a non-zero result. -/
theorem RPMC_Challenge_match_iff (H : List Nat → List Nat → List Nat) (dev : Device)
    (fuel n a : Nat) (k t : List Nat) (s : State)
    (hbusy : busyPhase dev n (RPMC_RequestCounter H dev a k t s)) (hfuel : n < fuel) :
    ∃ (r : Int) (s' : State),
      RPMC_Challenge H dev fuel a k t s = some (r, s') ∧
      s' = (RPMC_ReadStatus dev 1
              (afterReads dev (n + 1) (RPMC_RequestCounter H dev a k t s))).2 ∧
      s'.g_u8Tag.length = 12 ∧ s'.g_u8Counter.length = 4 ∧ s'.g_u8Signature.length = 32 ∧
      (r = 0 ↔
        s'.g_u8Signature = HMAC_SHA256 H k 32 (s'.g_u8Tag ++ s'.g_u8Counter) 16) ∧
      ((∃ i, i < 32 ∧ s'.g_u8Signature.getD i 0 ≠
          (HMAC_SHA256 H k 32 (s'.g_u8Tag ++ s'.g_u8Counter) 16).getD i 0) → r ≠ 0) :=
  challenge_spec H dev fuel n a k t s hbusy hfuel

theorem RPMC_Challenge_match_iff_witness :
    busyPhase devMatch 1 (RPMC_RequestCounter toyH devMatch 1 key0 tag0 initState) ∧ 1 < 4 ∧
    ∃ (r : Int) (s' : State),
      RPMC_Challenge toyH devMatch 4 1 key0 tag0 initState = some (r, s') ∧
      s' = (RPMC_ReadStatus devMatch 1
              (afterReads devMatch (1 + 1) (RPMC_RequestCounter toyH devMatch 1 key0 tag0 initState))).2 ∧
      s'.g_u8Tag.length = 12 ∧ s'.g_u8Counter.length = 4 ∧ s'.g_u8Signature.length = 32 ∧
      (r = 0 ↔
        s'.g_u8Signature = HMAC_SHA256 toyH key0 32 (s'.g_u8Tag ++ s'.g_u8Counter) 16) ∧
      ((∃ i, i < 32 ∧ s'.g_u8Signature.getD i 0 ≠
          (HMAC_SHA256 toyH key0 32 (s'.g_u8Tag ++ s'.g_u8Counter) 16).getD i 0) → r ≠ 0) :=
  ⟨by decide, by decide,
    RPMC_Challenge_match_iff toyH devMatch 4 1 1 key0 tag0 initState (by decide) (by decide)⟩

/-- C2: round trip. Let the busy phase after the Update HMAC Key frame end, let `k` be the key
`RPMC_UpdateHMACKey` leaves in the caller's buffer and `s1` the state it leaves. If the busy phase
after the Request Counter frame of the following `RPMC_Challenge a k t` ends and the checkout read
stores the caller's tag `t`, a counter `c` and the digest of `k` over `t ++ c`, then
`RPMC_UpdateHMACKey` returns that key and `RPMC_Challenge` returns 0. Holds for every counter
address, in particular for 1..4. -/
theorem RPMC_UpdateHMACKey_Challenge_roundtrip (H : List Nat → List Nat → List Nat)
    (dev : Device) (fuel n0 n1 a : Nat) (r sd t c k : List Nat) (s s1 : State)
    (hk : k = (RPMC_UpdateHMACKey_frame H dev a r sd s).1)
    (hs1 : s1 = afterReads dev (n0 + 1) (RPMC_UpdateHMACKey_frame H dev a r sd s).2)
    (hbusy0 : busyPhase dev n0 (RPMC_UpdateHMACKey_frame H dev a r sd s).2) (hfuel0 : n0 < fuel)
    (hbusy1 : busyPhase dev n1 (RPMC_RequestCounter H dev a k t s1)) (hfuel1 : n1 < fuel)
    (htag : (RPMC_ReadStatus dev 1
      (afterReads dev (n1 + 1) (RPMC_RequestCounter H dev a k t s1))).2.g_u8Tag = t)
    (hcnt : (RPMC_ReadStatus dev 1
      (afterReads dev (n1 + 1) (RPMC_RequestCounter H dev a k t s1))).2.g_u8Counter = c)
    (hsig : (RPMC_ReadStatus dev 1
      (afterReads dev (n1 + 1) (RPMC_RequestCounter H dev a k t s1))).2.g_u8Signature =
        HMAC_SHA256 H k 32 (t ++ c) 16) :
    k = HMAC_SHA256 H r 32 sd 4 ∧
    (∃ st, RPMC_UpdateHMACKey H dev fuel a r sd s = some (st, k, s1)) ∧
    (∃ s', RPMC_Challenge H dev fuel a k t s1 = some (0, s')) := by
  refine ⟨by rw [hk]; rfl, ⟨statusAt dev n0 (RPMC_UpdateHMACKey_frame H dev a r sd s).2, ?_⟩, ?_⟩
  · unfold RPMC_UpdateHMACKey
    simp only [waitDone_busy_of_busyPhase dev n0 fuel _ hbusy0 hfuel0, hk, hs1]
  · obtain ⟨res, s', hret, hs', _, _, _, hiff, _⟩ :=
      challenge_spec H dev fuel n1 a k t s1 hbusy1 hfuel1
    have h0 : res = 0 := by
      rw [hiff, hs', htag, hcnt, hsig]
    exact ⟨s', by rw [hret, h0]⟩

theorem RPMC_UpdateHMACKey_Challenge_roundtrip_witness :
    (∃ st, RPMC_UpdateHMACKey toyH devRoundTrip 3 2 key0 seed0 initState =
      some (st, HMAC_SHA256 toyH key0 32 seed0 4,
        afterReads devRoundTrip (0 + 1)
          (RPMC_UpdateHMACKey_frame toyH devRoundTrip 2 key0 seed0 initState).2)) ∧
    (∃ s', RPMC_Challenge toyH devRoundTrip 3 2 (HMAC_SHA256 toyH key0 32 seed0 4) tag0
      (afterReads devRoundTrip (0 + 1)
          (RPMC_UpdateHMACKey_frame toyH devRoundTrip 2 key0 seed0 initState).2) = some (0, s')) :=
  (RPMC_UpdateHMACKey_Challenge_roundtrip toyH devRoundTrip 3 0 1 2 key0 seed0 tag0 cnt0
    (HMAC_SHA256 toyH key0 32 seed0 4)
    initState
    (afterReads devRoundTrip (0 + 1)
      (RPMC_UpdateHMACKey_frame toyH devRoundTrip 2 key0 seed0 initState).2)
    (by decide) rfl (by decide) (by decide) (by decide) (by decide) (by decide) (by decide)
    (by decide)).2

/-! ## Increase Counter -/

/-- For a counter address in 1..4 the wire index byte is the address minus one. -/
theorem wireIndex_of_valid (a : Nat) (h1 : 1 ≤ a) (h4 : a ≤ 4) : u8 (subOne32 a) = a - 1 := by
  simp only [u8, subOne32, u32]
  omega

/-- The whole run of `RPMC_IncreaseCounter` when both busy phases end. -/
theorem increase_spec (H : List Nat → List Nat → List Nat) (dev : Device)
    (fuel n1 n2 a : Nat) (k t : List Nat) (s : State) (ht : isBytes t)
    (hb1 : busyPhase dev n1 (RPMC_RequestCounter H dev a k t s)) (hf1 : n1 < fuel)
    (hb2 : busyPhase dev n2 (RPMC_IncreaseCounter_frame H dev a k
      (RPMC_ReadStatus dev 1 (afterReads dev (n1 + 1) (RPMC_RequestCounter H dev a k t s))).2))
    (hf2 : n2 < fuel) :
    ∃ (s' : State) (rq : List Nat) (p1 : List (Nat × Nat × Nat)) (r0 r1 stc : Nat)
      (tag c sg inc : List Nat) (p2 : List (Nat × Nat × Nat)),
      RPMC_IncreaseCounter H dev fuel a k t s =
        some (statusAt dev n2 (RPMC_IncreaseCounter_frame H dev a k
          (RPMC_ReadStatus dev 1 (afterReads dev (n1 + 1)
            (RPMC_RequestCounter H dev a k t s))).2), s') ∧
      s' = afterReads dev (n2 + 1) (RPMC_IncreaseCounter_frame H dev a k
          (RPMC_ReadStatus dev 1 (afterReads dev (n1 + 1)
            (RPMC_RequestCounter H dev a k t s))).2) ∧
      rq.length = 48 ∧ p1.length = n1 + 1 ∧ tag.length = 12 ∧ c.length = 4 ∧ sg.length = 32 ∧
      inc.length = 40 ∧ p2.length = n2 + 1 ∧
      s'.bus = s.bus ++
        frame (([0x9B, 0x03, u8 (subOne32 a), 0x00] ++ readBuf t 12) ++
          HMAC_SHA256 H k 32 ([0x9B, 0x03, u8 (subOne32 a), 0x00] ++ readBuf t 12) 16) rq ++
        statusFrames p1 ++
        frame ([0x96, 0x00, 0x00] ++ List.replicate 48 0) ([r0, r1, stc] ++ (tag ++ c ++ sg)) ++
        frame (([0x9B, 0x02, u8 (subOne32 a), 0x00] ++ c) ++
          HMAC_SHA256 H k 32 ([0x9B, 0x02, u8 (subOne32 a), 0x00] ++ c) 8) inc ++
        statusFrames p2 := by
  obtain ⟨rq, hrq, hreq⟩ := RPMC_RequestCounter_spec H dev a k t s ht
  obtain ⟨p1, hp1, _, hpoll1⟩ := afterReads_bus dev (n1 + 1) (RPMC_RequestCounter H dev a k t s)
  obtain ⟨r0, r1, stc, tag, c, sg, _, htl, hcl, hsl, _, hcb, _, hchk⟩ :=
    RPMC_ReadStatus_checkout dev 1 (by decide)
      (afterReads dev (n1 + 1) (RPMC_RequestCounter H dev a k t s))
  have hcnt : (RPMC_ReadStatus dev 1 (afterReads dev (n1 + 1)
      (RPMC_RequestCounter H dev a k t s))).2.g_u8Counter = c := by rw [hchk]
  obtain ⟨inc, hinc, hfr⟩ := RPMC_IncreaseCounter_frame_spec H dev a k
    (RPMC_ReadStatus dev 1 (afterReads dev (n1 + 1) (RPMC_RequestCounter H dev a k t s))).2
    (by rw [hcnt]; exact hcb)
  obtain ⟨p2, hp2, _, hpoll2⟩ := afterReads_bus dev (n2 + 1) (RPMC_IncreaseCounter_frame H dev a k
    (RPMC_ReadStatus dev 1 (afterReads dev (n1 + 1) (RPMC_RequestCounter H dev a k t s))).2)
  refine ⟨_, rq, p1, r0, r1, stc, tag, c, sg, inc, p2, ?_, rfl, hrq, hp1, htl, hcl, hsl, hinc,
    hp2, ?_⟩
  · unfold RPMC_IncreaseCounter
    simp only [waitDone_of_busyPhase dev n1 fuel _ hb1 hf1,
      waitDone_busy_of_busyPhase dev n2 fuel _ hb2 hf2]
  · have b1 := congrArg State.bus hreq
    have b2 := congrArg State.bus hpoll1
    have b3 := congrArg (fun r => r.2.bus) hchk
    have b4 := congrArg State.bus hfr
    have b5 := congrArg State.bus hpoll2
    rw [hcnt, readBuf_of_length c 4 hcl] at b4
    simp only at b1 b2 b3 b4 b5
    rw [b5, b4, b3, b2, b1]

/-- C3: for a counter address in 1..4, when both busy phases end, `RPMC_IncreaseCounter` returns and
everything it put on the bus is, in this order: its Request Counter frame, `n1 + 1` status-only
reads, one checkout read that received tag `tag`, counter `c` and signature `sg`, one Increase
frame, and `n2 + 1` status-only reads. The Increase frame is the 8-byte message
`9B 02 (a-1) 00 c0 c1 c2 c3` followed by the 32-byte digest of the key over that message, where
`c` is the counter received in the checkout read just before; no other Increase frame is sent. -/
theorem RPMC_IncreaseCounter_sends_checked_out_counter (H : List Nat → List Nat → List Nat)
    (dev : Device) (fuel n1 n2 a : Nat) (k t : List Nat) (s : State)
    (ha1 : 1 ≤ a) (ha4 : a ≤ 4) (htl : t.length = 12) (ht : isBytes t)
    (hb1 : busyPhase dev n1 (RPMC_RequestCounter H dev a k t s)) (hf1 : n1 < fuel)
    (hb2 : busyPhase dev n2 (RPMC_IncreaseCounter_frame H dev a k
      (RPMC_ReadStatus dev 1 (afterReads dev (n1 + 1) (RPMC_RequestCounter H dev a k t s))).2))
    (hf2 : n2 < fuel) :
    ∃ (st : Nat) (s' : State) (rq : List Nat) (p1 : List (Nat × Nat × Nat)) (r0 r1 stc : Nat)
      (tag c sg inc : List Nat) (p2 : List (Nat × Nat × Nat)),
      RPMC_IncreaseCounter H dev fuel a k t s = some (st, s') ∧
      rq.length = 48 ∧ p1.length = n1 + 1 ∧ tag.length = 12 ∧ c.length = 4 ∧ sg.length = 32 ∧
      inc.length = 40 ∧ p2.length = n2 + 1 ∧
      s'.bus = s.bus ++
        frame (([0x9B, 0x03, a - 1, 0x00] ++ t) ++
          HMAC_SHA256 H k 32 ([0x9B, 0x03, a - 1, 0x00] ++ t) 16) rq ++
        statusFrames p1 ++
        frame ([0x96, 0x00, 0x00] ++ List.replicate 48 0) ([r0, r1, stc] ++ (tag ++ c ++ sg)) ++
        frame (([0x9B, 0x02, a - 1, 0x00] ++ c) ++
          HMAC_SHA256 H k 32 ([0x9B, 0x02, a - 1, 0x00] ++ c) 8) inc ++
        statusFrames p2 := by
  obtain ⟨s', rq, p1, r0, r1, stc, tag, c, sg, inc, p2, hret, _, h1, h2, h3, h4, h5, h6, h7, hbus⟩ :=
    increase_spec H dev fuel n1 n2 a k t s ht hb1 hf1 hb2 hf2
  rw [wireIndex_of_valid a ha1 ha4, readBuf_of_length t 12 htl] at hbus
  exact ⟨_, s', rq, p1, r0, r1, stc, tag, c, sg, inc, p2, hret, h1, h2, h3, h4, h5, h6, h7, hbus⟩

theorem RPMC_IncreaseCounter_sends_checked_out_counter_witness :
    busyPhase devIncrease 1 (RPMC_RequestCounter toyH devIncrease 1 key0 tag0 initState) ∧
    busyPhase devIncrease 2 (RPMC_IncreaseCounter_frame toyH devIncrease 1 key0
      (RPMC_ReadStatus devIncrease 1 (afterReads devIncrease (1 + 1)
        (RPMC_RequestCounter toyH devIncrease 1 key0 tag0 initState))).2) ∧
    ∃ (st : Nat) (s' : State),
      RPMC_IncreaseCounter toyH devIncrease 3 1 key0 tag0 initState = some (st, s') :=
  ⟨by decide, by decide,
    match RPMC_IncreaseCounter_sends_checked_out_counter toyH devIncrease 3 1 2 1 key0 tag0
      initState (by decide) (by decide) (by decide) (by decide) (by decide) (by decide)
      (by decide) (by decide) with
    | ⟨st, s', _, _, _, _, _, _, _, _, _, _, h, _⟩ => ⟨st, s', h⟩⟩

/-! ## Request Counter, Write Root Key, Update HMAC Key -/

/-- C4: for a counter address in 1..4 and a 12-byte tag, `RPMC_RequestCounter` adds to the bus
exactly one chip-select window with 48 transfers, sending the 16-byte message `9B 03 (a-1) 00 t`
followed by the 32-byte digest of the key over that message; nothing follows the window (no status
read), and the stored tag and counter are untouched. For address 1 and tag `00 .. 0B` the message
is `9B 03 00 00 00 01 .. 0B`. -/
theorem RPMC_RequestCounter_transmits (H : List Nat → List Nat → List Nat) (dev : Device)
    (a : Nat) (k t : List Nat) (s : State)
    (ha1 : 1 ≤ a) (ha4 : a ≤ 4) (htl : t.length = 12) (ht : isBytes t) :
    (∃ rx, rx.length = 48 ∧
      ([0x9B, 0x03, a - 1, 0x00] ++ t).length = 16 ∧
      (HMAC_SHA256 H k 32 ([0x9B, 0x03, a - 1, 0x00] ++ t) 16).length = 32 ∧
      (RPMC_RequestCounter H dev a k t s).bus = s.bus ++
        frame (([0x9B, 0x03, a - 1, 0x00] ++ t) ++
          HMAC_SHA256 H k 32 ([0x9B, 0x03, a - 1, 0x00] ++ t) 16) rx ∧
      (RPMC_RequestCounter H dev a k t s).g_u8Tag = s.g_u8Tag ∧
      (RPMC_RequestCounter H dev a k t s).g_u8Counter = s.g_u8Counter) ∧
    (∃ rx, rx.length = 48 ∧
      (RPMC_RequestCounter H dev 1 k [0x00, 0x01, 0x02, 0x03, 0x04, 0x05, 0x06, 0x07, 0x08,
          0x09, 0x0A, 0x0B] s).bus = s.bus ++
        frame ([0x9B, 0x03, 0x00, 0x00, 0x00, 0x01, 0x02, 0x03, 0x04, 0x05, 0x06, 0x07, 0x08,
            0x09, 0x0A, 0x0B] ++
          HMAC_SHA256 H k 32 [0x9B, 0x03, 0x00, 0x00, 0x00, 0x01, 0x02, 0x03, 0x04, 0x05, 0x06,
            0x07, 0x08, 0x09, 0x0A, 0x0B] 16) rx) := by
  constructor
  · obtain ⟨rx, hl, he⟩ := RPMC_RequestCounter_spec H dev a k t s ht
    rw [wireIndex_of_valid a ha1 ha4, readBuf_of_length t 12 htl] at he
    refine ⟨rx, hl, by simp [htl], HMAC_SHA256_length H k 32 _ 16, ?_, ?_, ?_⟩ <;> rw [he]
  · obtain ⟨rx, hl, he⟩ := RPMC_RequestCounter_spec H dev 1 k
      [0x00, 0x01, 0x02, 0x03, 0x04, 0x05, 0x06, 0x07, 0x08, 0x09, 0x0A, 0x0B] s (by decide)
    rw [wireIndex_of_valid 1 (by decide) (by decide),
      readBuf_of_length [0x00, 0x01, 0x02, 0x03, 0x04, 0x05, 0x06, 0x07, 0x08, 0x09, 0x0A, 0x0B]
        12 rfl] at he
    exact ⟨rx, hl, by rw [he]; rfl⟩

theorem RPMC_RequestCounter_transmits_witness :
    (1 ≤ 3 ∧ 3 ≤ 4 ∧ tag0.length = 12 ∧ isBytes tag0) ∧
    ∃ rx, rx.length = 48 ∧
      (RPMC_RequestCounter toyH (scripted []) 3 key0 tag0 initState).bus = initState.bus ++
        frame (([0x9B, 0x03, 3 - 1, 0x00] ++ tag0) ++
          HMAC_SHA256 toyH key0 32 ([0x9B, 0x03, 3 - 1, 0x00] ++ tag0) 16) rx :=
  ⟨by decide,
    match (RPMC_RequestCounter_transmits toyH (scripted []) 3 key0 tag0 initState
      (by decide) (by decide) (by decide) (by decide)).1 with
    | ⟨rx, h, _, _, hb, _⟩ => ⟨rx, h, hb⟩⟩

/-- The busy poll when the busy phase ends after `n` reads: it returns the status of read number
`n`, which has bit 0 clear, after `n` status-only reads that found bit 0 set and one that
did not. -/
theorem poll_trace (dev : Device) (n fuel : Nat) (s0 : State)
    (hb : busyPhase dev n s0) (hf : n < fuel) :
    ∃ (polls : List (Nat × Nat × Nat)) (r0 r1 : Nat), polls.length = n ∧
      (∀ p ∈ polls, p.2.2 % 2 = 1) ∧ statusAt dev n s0 % 2 = 0 ∧
      waitDone dev 0x01 fuel s0 = some (statusAt dev n s0, afterReads dev (n + 1) s0) ∧
      afterReads dev (n + 1) s0 =
        { s0 with bus := (s0.bus ++ statusFrames polls ++
            frame [0x96, 0x00, 0x00] [r0, r1, statusAt dev n s0]) } := by
  obtain ⟨polls, hl, hm, hs⟩ := afterReads_bus dev n s0
  obtain ⟨r0, r1, st, _, hz⟩ := RPMC_ReadStatus_zero dev (afterReads dev n s0)
  have hst : statusAt dev n s0 = st := by simp [statusAt, hz]
  refine ⟨polls, r0, r1, hl, ?_, hb.2, waitDone_of_busyPhase dev n fuel s0 hb hf, ?_⟩
  · intro p hp
    have hmem : p.2.2 ∈ polls.map (fun r => r.2.2) := List.mem_map_of_mem _ hp
    rw [hm, List.mem_map] at hmem
    obtain ⟨i, hi, he⟩ := hmem
    rw [← he]
    exact hb.1 i (List.mem_range.mp hi)
  · rw [afterReads_succ, hz, hst, hs]

/-- C5: for a counter address in 1..4 and a 32-byte root key `r`, the instruction frame of
`RPMC_WriteRootKey` is one chip-select window of exactly 64 transfers: the header `9B 00 (a-1) 00`,
the 32 bytes of `r`, and the 28 bytes left of the digest of `r` over the header once its first four
bytes are dropped. Whenever the busy phase that follows ends, `RPMC_WriteRootKey` returns and the
bus holds that frame followed by status-only reads and nothing else. -/
theorem RPMC_WriteRootKey_transmits (H : List Nat → List Nat → List Nat) (dev : Device)
    (a : Nat) (r : List Nat) (s : State)
    (ha1 : 1 ≤ a) (ha4 : a ≤ 4) (hrl : r.length = 32) (hr : isBytes r) :
    ∃ rx, rx.length = 64 ∧
      (HMAC_SHA256 H r 32 [0x9B, 0x00, a - 1, 0x00] 4).length = 32 ∧
      ((HMAC_SHA256 H r 32 [0x9B, 0x00, a - 1, 0x00] 4).drop 4).length = 28 ∧
      ([0x9B, 0x00, a - 1, 0x00] ++
        (r ++ (HMAC_SHA256 H r 32 [0x9B, 0x00, a - 1, 0x00] 4).drop 4)).length = 64 ∧
      (RPMC_WriteRootKey_frame H dev a r s).bus = s.bus ++
        frame ([0x9B, 0x00, a - 1, 0x00] ++
          (r ++ (HMAC_SHA256 H r 32 [0x9B, 0x00, a - 1, 0x00] 4).drop 4)) rx ∧
      ∀ n fuel, busyPhase dev n (RPMC_WriteRootKey_frame H dev a r s) → n < fuel →
        ∃ st s' polls, RPMC_WriteRootKey H dev fuel a r s = some (st, s') ∧
          polls.length = n + 1 ∧
          s'.bus = s.bus ++
            frame ([0x9B, 0x00, a - 1, 0x00] ++
              (r ++ (HMAC_SHA256 H r 32 [0x9B, 0x00, a - 1, 0x00] 4).drop 4)) rx ++
            statusFrames polls := by
  obtain ⟨rx, hl, he⟩ := RPMC_WriteRootKey_frame_spec H dev a r s hr
  rw [wireIndex_of_valid a ha1 ha4, readBuf_of_length r 32 hrl] at he
  have hd := HMAC_SHA256_length H r 32 [0x9B, 0x00, a - 1, 0x00] 4
  have hbus : (RPMC_WriteRootKey_frame H dev a r s).bus = s.bus ++
      frame ([0x9B, 0x00, a - 1, 0x00] ++
        (r ++ (HMAC_SHA256 H r 32 [0x9B, 0x00, a - 1, 0x00] 4).drop 4)) rx := by rw [he]
  refine ⟨rx, hl, hd, by simp [hd], by simp [hd, hrl], hbus, ?_⟩
  intro n fuel hb hf
  obtain ⟨polls, hpl, _, hpb⟩ := afterReads_bus dev (n + 1) (RPMC_WriteRootKey_frame H dev a r s)
  refine ⟨_, _, polls, waitDone_of_busyPhase dev n fuel _ hb hf, hpl, ?_⟩
  rw [hpb, ← hbus]

theorem RPMC_WriteRootKey_transmits_witness :
    (1 ≤ 4 ∧ 4 ≤ 4 ∧ key0.length = 32 ∧ isBytes key0) ∧
    ∃ rx, rx.length = 64 ∧
      (RPMC_WriteRootKey_frame toyH (scripted []) 4 key0 initState).bus = initState.bus ++
        frame ([0x9B, 0x00, 4 - 1, 0x00] ++
          (key0 ++ (HMAC_SHA256 toyH key0 32 [0x9B, 0x00, 4 - 1, 0x00] 4).drop 4)) rx :=
  ⟨by decide,
    match RPMC_WriteRootKey_transmits toyH (scripted []) 4 key0 initState
      (by decide) (by decide) (by decide) (by decide) with
    | ⟨rx, h, _, _, _, hb, _⟩ => ⟨rx, h, hb⟩⟩

/-- C6: for a counter address in 1..4, a 32-byte root key `r` and a 4-byte seed `sd`,
`RPMC_UpdateHMACKey` leaves in the caller's key buffer the digest `k` of `r` over `sd`, and its
instruction frame is one chip-select window of exactly 40 transfers: the message
`9B 01 (a-1) 00 sd` followed by the 32-byte digest of `k` (the derived key, not the root key) over
that message. Whenever the busy phase that follows ends, `RPMC_UpdateHMACKey` returns with that
key and the bus holds the frame followed by status-only reads and nothing else. -/
theorem RPMC_UpdateHMACKey_transmits (H : List Nat → List Nat → List Nat) (dev : Device)
    (a : Nat) (r sd : List Nat) (s : State)
    (ha1 : 1 ≤ a) (ha4 : a ≤ 4) (hsl : sd.length = 4) (hsd : isBytes sd) :
    ∃ rx, rx.length = 40 ∧
      (RPMC_UpdateHMACKey_frame H dev a r sd s).1 = HMAC_SHA256 H r 32 sd 4 ∧
      ([0x9B, 0x01, a - 1, 0x00] ++ sd).length = 8 ∧
      (HMAC_SHA256 H (HMAC_SHA256 H r 32 sd 4) 32 ([0x9B, 0x01, a - 1, 0x00] ++ sd) 8).length
        = 32 ∧
      (RPMC_UpdateHMACKey_frame H dev a r sd s).2.bus = s.bus ++
        frame (([0x9B, 0x01, a - 1, 0x00] ++ sd) ++
          HMAC_SHA256 H (HMAC_SHA256 H r 32 sd 4) 32 ([0x9B, 0x01, a - 1, 0x00] ++ sd) 8) rx ∧
      ∀ n fuel, busyPhase dev n (RPMC_UpdateHMACKey_frame H dev a r sd s).2 → n < fuel →
        ∃ st s' polls, RPMC_UpdateHMACKey H dev fuel a r sd s =
            some (st, HMAC_SHA256 H r 32 sd 4, s') ∧
          polls.length = n + 1 ∧
          s'.bus = s.bus ++
            frame (([0x9B, 0x01, a - 1, 0x00] ++ sd) ++
              HMAC_SHA256 H (HMAC_SHA256 H r 32 sd 4) 32
                ([0x9B, 0x01, a - 1, 0x00] ++ sd) 8) rx ++
            statusFrames polls := by
  obtain ⟨rx, hl, he⟩ := RPMC_UpdateHMACKey_frame_spec H dev a r sd s hsd
  rw [wireIndex_of_valid a ha1 ha4, readBuf_of_length sd 4 hsl] at he
  have hbus : (RPMC_UpdateHMACKey_frame H dev a r sd s).2.bus = s.bus ++
      frame (([0x9B, 0x01, a - 1, 0x00] ++ sd) ++
        HMAC_SHA256 H (HMAC_SHA256 H r 32 sd 4) 32 ([0x9B, 0x01, a - 1, 0x00] ++ sd) 8) rx := by
    rw [he]
  have hkey : (RPMC_UpdateHMACKey_frame H dev a r sd s).1 = HMAC_SHA256 H r 32 sd 4 := by
    rw [he]
  refine ⟨rx, hl, hkey, by simp [hsl], HMAC_SHA256_length H _ 32 _ 8, hbus, ?_⟩
  intro n fuel hb hf
  obtain ⟨polls, hpl, _, hpb⟩ :=
    afterReads_bus dev (n + 1) (RPMC_UpdateHMACKey_frame H dev a r sd s).2
  refine ⟨statusAt dev n (RPMC_UpdateHMACKey_frame H dev a r sd s).2,
    afterReads dev (n + 1) (RPMC_UpdateHMACKey_frame H dev a r sd s).2, polls, ?_, hpl, ?_⟩
  · unfold RPMC_UpdateHMACKey
    simp only [waitDone_busy_of_busyPhase dev n fuel _ hb hf, hkey]
  · rw [hpb, ← hbus]

theorem RPMC_UpdateHMACKey_transmits_witness :
    (1 ≤ 2 ∧ 2 ≤ 4 ∧ seed0.length = 4 ∧ isBytes seed0) ∧
    ∃ rx : List Nat, rx.length = 40 ∧
      (RPMC_UpdateHMACKey_frame toyH (scripted []) 2 key0 seed0 initState).1 =
        HMAC_SHA256 toyH key0 32 seed0 4 :=
  ⟨by decide,
    match RPMC_UpdateHMACKey_transmits toyH (scripted []) 2 key0 seed0 initState
      (by decide) (by decide) (by decide) (by decide) with
    | ⟨rx, h, hk, _⟩ => ⟨rx, h, hk⟩⟩

/-! ## Counter addresses outside 1..4 -/

/-- The whole run of `RPMC_Challenge` when the busy phase ends. -/
theorem challenge_trace (H : List Nat → List Nat → List Nat) (dev : Device)
    (fuel n a : Nat) (k t : List Nat) (s : State) (ht : isBytes t)
    (hbusy : busyPhase dev n (RPMC_RequestCounter H dev a k t s)) (hfuel : n < fuel) :
    ∃ (res : Int) (s' : State) (rq : List Nat) (p : List (Nat × Nat × Nat)) (r0 r1 stc : Nat)
      (tag c sg : List Nat),
      RPMC_Challenge H dev fuel a k t s = some (res, s') ∧
      rq.length = 48 ∧ p.length = n + 1 ∧ tag.length = 12 ∧ c.length = 4 ∧ sg.length = 32 ∧
      s'.bus = s.bus ++
        frame (([0x9B, 0x03, u8 (subOne32 a), 0x00] ++ readBuf t 12) ++
          HMAC_SHA256 H k 32 ([0x9B, 0x03, u8 (subOne32 a), 0x00] ++ readBuf t 12) 16) rq ++
        statusFrames p ++
        frame ([0x96, 0x00, 0x00] ++ List.replicate 48 0) ([r0, r1, stc] ++ (tag ++ c ++ sg)) := by
  obtain ⟨res, s', hret, hs', _⟩ := challenge_spec H dev fuel n a k t s hbusy hfuel
  obtain ⟨rq, hrq, hreq⟩ := RPMC_RequestCounter_spec H dev a k t s ht
  obtain ⟨p, hp, _, hpoll⟩ := afterReads_bus dev (n + 1) (RPMC_RequestCounter H dev a k t s)
  obtain ⟨r0, r1, stc, tag, c, sg, _, htl, hcl, hsl, _, _, _, hchk⟩ :=
    RPMC_ReadStatus_checkout dev 1 (by decide)
      (afterReads dev (n + 1) (RPMC_RequestCounter H dev a k t s))
  refine ⟨res, s', rq, p, r0, r1, stc, tag, c, sg, hret, hrq, hp, htl, hcl, hsl, ?_⟩
  have b1 := congrArg State.bus hreq
  have b2 := congrArg State.bus hpoll
  have b3 := congrArg (fun r => r.2.bus) hchk
  simp only at b1 b2 b3
  rw [hs', b3, b2, b1]

/-- C7, as the code stands: no driver checks the counter address. For every address `a`, in range
or not, each driver sends its instruction frame with the wire index byte `(a - 1) mod 2^32 mod 256`
in third position: `RPMC_RequestCounter`, the frames of `RPMC_WriteRootKey` and
`RPMC_UpdateHMACKey` on any device, and, when the busy phases end, the Request Counter frame of
`RPMC_Challenge` and both frames of `RPMC_IncreaseCounter`. Address 0 gives the index byte `FF` and address 5 the
index byte `04`. -/
theorem drivers_send_any_address (H : List Nat → List Nat → List Nat) (dev : Device)
    (fuel n1 n2 a : Nat) (k t r sd : List Nat) (s : State)
    (ht : isBytes t) (hr : isBytes r) (hsd : isBytes sd) :
    (u8 (subOne32 a) = (a % 2 ^ 32 + (2 ^ 32 - 1)) % 2 ^ 32 % 256 ∧
      u8 (subOne32 0) = 0xFF ∧ u8 (subOne32 5) = 0x04) ∧
    (∃ rx, rx.length = 48 ∧
      (RPMC_RequestCounter H dev a k t s).bus = s.bus ++
        frame (([0x9B, 0x03, u8 (subOne32 a), 0x00] ++ readBuf t 12) ++
          HMAC_SHA256 H k 32 ([0x9B, 0x03, u8 (subOne32 a), 0x00] ++ readBuf t 12) 16) rx) ∧
    (∃ rx, rx.length = 64 ∧
      (RPMC_WriteRootKey_frame H dev a r s).bus = s.bus ++
        frame ([0x9B, 0x00, u8 (subOne32 a), 0x00] ++ (readBuf r 32 ++
          (HMAC_SHA256 H r 32 [0x9B, 0x00, u8 (subOne32 a), 0x00] 4).drop 4)) rx) ∧
    (∃ rx, rx.length = 40 ∧
      (RPMC_UpdateHMACKey_frame H dev a r sd s).2.bus = s.bus ++
        frame (([0x9B, 0x01, u8 (subOne32 a), 0x00] ++ readBuf sd 4) ++
          HMAC_SHA256 H (HMAC_SHA256 H r 32 sd 4) 32
            ([0x9B, 0x01, u8 (subOne32 a), 0x00] ++ readBuf sd 4) 8) rx) ∧
    (busyPhase dev n1 (RPMC_RequestCounter H dev a k t s) → n1 < fuel →
      ∃ (res : Int) (s' : State) (rq : List Nat) (p : List (Nat × Nat × Nat)) (r0 r1 stc : Nat)
        (tag c sg : List Nat),
        RPMC_Challenge H dev fuel a k t s = some (res, s') ∧
        rq.length = 48 ∧ p.length = n1 + 1 ∧ tag.length = 12 ∧ c.length = 4 ∧ sg.length = 32 ∧
        s'.bus = s.bus ++
          frame (([0x9B, 0x03, u8 (subOne32 a), 0x00] ++ readBuf t 12) ++
            HMAC_SHA256 H k 32 ([0x9B, 0x03, u8 (subOne32 a), 0x00] ++ readBuf t 12) 16) rq ++
          statusFrames p ++
          frame ([0x96, 0x00, 0x00] ++ List.replicate 48 0)
            ([r0, r1, stc] ++ (tag ++ c ++ sg))) ∧
    (busyPhase dev n1 (RPMC_RequestCounter H dev a k t s) → n1 < fuel →
      busyPhase dev n2 (RPMC_IncreaseCounter_frame H dev a k
        (RPMC_ReadStatus dev 1
          (afterReads dev (n1 + 1) (RPMC_RequestCounter H dev a k t s))).2) → n2 < fuel →
      ∃ (st : Nat) (s' : State) (rq : List Nat) (p1 : List (Nat × Nat × Nat)) (r0 r1 stc : Nat)
        (tag c sg inc : List Nat) (p2 : List (Nat × Nat × Nat)),
        RPMC_IncreaseCounter H dev fuel a k t s = some (st, s') ∧
        rq.length = 48 ∧ p1.length = n1 + 1 ∧ tag.length = 12 ∧ c.length = 4 ∧ sg.length = 32 ∧
        inc.length = 40 ∧ p2.length = n2 + 1 ∧
        s'.bus = s.bus ++
          frame (([0x9B, 0x03, u8 (subOne32 a), 0x00] ++ readBuf t 12) ++
            HMAC_SHA256 H k 32 ([0x9B, 0x03, u8 (subOne32 a), 0x00] ++ readBuf t 12) 16) rq ++
          statusFrames p1 ++
          frame ([0x96, 0x00, 0x00] ++ List.replicate 48 0)
            ([r0, r1, stc] ++ (tag ++ c ++ sg)) ++
          frame (([0x9B, 0x02, u8 (subOne32 a), 0x00] ++ c) ++
            HMAC_SHA256 H k 32 ([0x9B, 0x02, u8 (subOne32 a), 0x00] ++ c) 8) inc ++
          statusFrames p2) := by
  refine ⟨⟨rfl, by decide, by decide⟩, ?_, ?_, ?_,
    fun hb1 hf1 => challenge_trace H dev fuel n1 a k t s ht hb1 hf1, ?_⟩
  · obtain ⟨rx, hl, he⟩ := RPMC_RequestCounter_spec H dev a k t s ht
    exact ⟨rx, hl, by rw [he]⟩
  · obtain ⟨rx, hl, he⟩ := RPMC_WriteRootKey_frame_spec H dev a r s hr
    exact ⟨rx, hl, by rw [he]⟩
  · obtain ⟨rx, hl, he⟩ := RPMC_UpdateHMACKey_frame_spec H dev a r sd s hsd
    exact ⟨rx, hl, by rw [he]⟩
  · intro hb1 hf1 hb2 hf2
    obtain ⟨s', rq, p1, r0, r1, stc, tag, c, sg, inc, p2, hret, _, h⟩ :=
      increase_spec H dev fuel n1 n2 a k t s ht hb1 hf1 hb2 hf2
    exact ⟨_, s', rq, p1, r0, r1, stc, tag, c, sg, inc, p2, hret, h⟩

theorem drivers_send_any_address_witness :
    (isBytes tag0 ∧ isBytes key0 ∧ isBytes seed0) ∧
    busyPhase devIncrease 1 (RPMC_RequestCounter toyH devIncrease 5 key0 tag0 initState) ∧
    busyPhase devIncrease 2 (RPMC_IncreaseCounter_frame toyH devIncrease 5 key0
      (RPMC_ReadStatus devIncrease 1 (afterReads devIncrease (1 + 1)
        (RPMC_RequestCounter toyH devIncrease 5 key0 tag0 initState))).2) ∧
    ∃ rx, rx.length = 48 ∧
      (RPMC_RequestCounter toyH devIncrease 5 key0 tag0 initState).bus = initState.bus ++
        frame (([0x9B, 0x03, u8 (subOne32 5), 0x00] ++ readBuf tag0 12) ++
          HMAC_SHA256 toyH key0 32 ([0x9B, 0x03, u8 (subOne32 5), 0x00] ++ readBuf tag0 12) 16)
          rx ∧
      ∃ (st : Nat) (s' : State),
        RPMC_IncreaseCounter toyH devIncrease 3 5 key0 tag0 initState = some (st, s') :=
  ⟨by decide, by decide, by decide,
    match (drivers_send_any_address toyH devIncrease 3 1 2 5 key0 tag0 key0 seed0 initState
        (by decide) (by decide) (by decide)).2.1,
      (drivers_send_any_address toyH devIncrease 3 1 2 5 key0 tag0 key0 seed0 initState
        (by decide) (by decide) (by decide)).2.2.2.2.2
        (by decide) (by decide) (by decide) (by decide) with
    | ⟨rx, hl, hb⟩, ⟨st, s', _, _, _, _, _, _, _, _, _, _, hret, _⟩ =>
      ⟨rx, hl, hb, st, s', hret⟩⟩

/-- C7 as stated fails: with address 0 and with address 5 every driver goes ahead and puts an
instruction frame on the bus whose third byte is the out-of-range wire index, `FF` for address 0
and `04` for address 5 (a device that is never busy, so one loop iteration is enough). -/
theorem out_of_range_address_not_rejected :
    (RPMC_RequestCounter toyH (scripted []) 0 key0 tag0 initState).bus.take 5 =
      [Event.csLow, Event.xfer 0x9B 0, Event.xfer 0x03 0, Event.xfer 0xFF 0, Event.xfer 0 0] ∧
    (RPMC_RequestCounter toyH (scripted []) 5 key0 tag0 initState).bus.take 5 =
      [Event.csLow, Event.xfer 0x9B 0, Event.xfer 0x03 0, Event.xfer 0x04 0, Event.xfer 0 0] ∧
    (RPMC_WriteRootKey toyH (scripted []) 1 0 key0 initState).map (fun r => r.2.bus.take 5) =
      some [Event.csLow, Event.xfer 0x9B 0, Event.xfer 0x00 0, Event.xfer 0xFF 0,
        Event.xfer 0 0] ∧
    (RPMC_WriteRootKey toyH (scripted []) 1 5 key0 initState).map (fun r => r.2.bus.take 5) =
      some [Event.csLow, Event.xfer 0x9B 0, Event.xfer 0x00 0, Event.xfer 0x04 0,
        Event.xfer 0 0] ∧
    (RPMC_UpdateHMACKey toyH (scripted []) 1 0 key0 seed0 initState).map
        (fun r => r.2.2.bus.take 5) =
      some [Event.csLow, Event.xfer 0x9B 0, Event.xfer 0x01 0, Event.xfer 0xFF 0,
        Event.xfer 0 0] ∧
    (RPMC_UpdateHMACKey toyH (scripted []) 1 5 key0 seed0 initState).map
        (fun r => r.2.2.bus.take 5) =
      some [Event.csLow, Event.xfer 0x9B 0, Event.xfer 0x01 0, Event.xfer 0x04 0,
        Event.xfer 0 0] ∧
    (RPMC_IncreaseCounter toyH (scripted []) 1 0 key0 tag0 initState).map
        (fun r => (r.2.bus.drop 108).take 5) =
      some [Event.csLow, Event.xfer 0x9B 0, Event.xfer 0x02 0, Event.xfer 0xFF 0,
        Event.xfer 0 0] ∧
    (RPMC_IncreaseCounter toyH (scripted []) 1 5 key0 tag0 initState).map
        (fun r => (r.2.bus.drop 108).take 5) =
      some [Event.csLow, Event.xfer 0x9B 0, Event.xfer 0x02 0, Event.xfer 0x04 0,
        Event.xfer 0 0] ∧
    (RPMC_Challenge toyH (scripted []) 1 0 key0 tag0 initState).map (fun r => r.2.bus.take 5) =
      some [Event.csLow, Event.xfer 0x9B 0, Event.xfer 0x03 0, Event.xfer 0xFF 0,
        Event.xfer 0 0] ∧
    (RPMC_Challenge toyH (scripted []) 1 5 key0 tag0 initState).map (fun r => r.2.bus.take 5) =
      some [Event.csLow, Event.xfer 0x9B 0, Event.xfer 0x03 0, Event.xfer 0x04 0,
        Event.xfer 0 0] := by
  decide

/-! ## Status read and counter value -/

/-- C8: `RPMC_ReadStatus f` opens one chip-select window, sends `96 00 00` and returns the byte `st`
received on the third transfer, a value below 256. With `f = 0` these three transfers are all
that happens and the stored tag, counter and signature are unchanged. With `f` non-zero exactly
48 further transfers of `00` follow in the same window and the bytes received are stored, in
order, as the 12-byte tag, the 4-byte counter and the 32-byte signature. -/
theorem RPMC_ReadStatus_transfers (dev : Device) (f : Nat) (s : State) :
    ∃ r0 r1 st, st < 256 ∧ (RPMC_ReadStatus dev f s).1 = st ∧
      (f = 0 → (RPMC_ReadStatus dev f s).2 =
          { s with bus := s.bus ++ frame [0x96, 0x00, 0x00] [r0, r1, st] }) ∧
      (f ≠ 0 → ∃ tag cnt sig, tag.length = 12 ∧ cnt.length = 4 ∧ sig.length = 32 ∧
        (RPMC_ReadStatus dev f s).2 =
          { g_u8Counter := cnt, g_u8Tag := tag, g_u8Signature := sig,
            bus := s.bus ++ frame ([0x96, 0x00, 0x00] ++ List.replicate 48 0)
              ([r0, r1, st] ++ (tag ++ cnt ++ sig)) }) := by
  by_cases hf : f = 0
  · obtain ⟨r0, r1, st, hst, h⟩ := RPMC_ReadStatus_zero dev s
    subst hf
    exact ⟨r0, r1, st, hst, by rw [h], fun _ => by rw [h], fun hne => absurd rfl hne⟩
  · obtain ⟨r0, r1, st, tag, cnt, sig, hst, h1, h2, h3, _, _, _, h⟩ :=
      RPMC_ReadStatus_checkout dev f hf s
    exact ⟨r0, r1, st, hst, by rw [h], fun h0 => absurd h0 hf,
      fun _ => ⟨tag, cnt, sig, h1, h2, h3, by rw [h]⟩⟩

/-- Values in the `int` range are not changed by the wrap-around. -/
theorem wrapInt32_eq_self (x : Int) (h1 : -2 ^ 31 ≤ x) (h2 : x < 2 ^ 31) : wrapInt32 x = x := by
  unfold wrapInt32
  omega

/-- Wrap-around is invisible after conversion to `uint32_t`. -/
theorem intToU32_wrapInt32_add (x y : Int) :
    intToU32 (wrapInt32 (wrapInt32 x + y)) = intToU32 (x + y) := by
  unfold intToU32 wrapInt32
  omega

/-- The value of `RPMC_ReadCounter` on four stored bytes. -/
theorem readCounter_eq (b0 b1 b2 b3 : Nat) (h0 : b0 < 256) (h1 : b1 < 256) (h2 : b2 < 256)
    (h3 : b3 < 256) (s : State) (hs : s.g_u8Counter = [b0, b1, b2, b3]) :
    RPMC_ReadCounter s = b0 * 2 ^ 24 + b1 * 2 ^ 16 + b2 * 2 ^ 8 + b3 := by
  have e0 : wrapInt32 ((b0 : Int) * 0x100) = (b0 : Int) * 256 :=
    wrapInt32_eq_self _ (by omega) (by omega)
  have e1 : wrapInt32 ((b0 : Int) * 256 + (b1 : Int)) = (b0 : Int) * 256 + b1 :=
    wrapInt32_eq_self _ (by omega) (by omega)
  have e2 : wrapInt32 (((b0 : Int) * 256 + b1) * 0x100) = ((b0 : Int) * 256 + b1) * 256 :=
    wrapInt32_eq_self _ (by omega) (by omega)
  have e3 : wrapInt32 (((b0 : Int) * 256 + b1) * 256 + (b2 : Int)) =
      ((b0 : Int) * 256 + b1) * 256 + b2 :=
    wrapInt32_eq_self _ (by omega) (by omega)
  unfold RPMC_ReadCounter
  simp only [hs, List.getD_cons_zero, List.getD_cons_succ]
  rw [e0, e1, e2, e3, intToU32_wrapInt32_add]
  unfold intToU32
  omega

/-- C9: on four stored counter bytes `b0 b1 b2 b3`, each below 256, `RPMC_ReadCounter` returns
`b0 * 2^24 + b1 * 2^16 + b2 * 2^8 + b3`, a value below `2^32`, whatever the top bit of `b0` (the
`int` arithmetic of the expression wrapping at 32 bits); and after a checkout read it returns that
big-endian value of the four counter bytes `c0 c1 c2 c3` the device sent in that read. -/
theorem RPMC_ReadCounter_big_endian (b0 b1 b2 b3 : Nat) (h0 : b0 < 256) (h1 : b1 < 256)
    (h2 : b2 < 256) (h3 : b3 < 256) (s : State) (hs : s.g_u8Counter = [b0, b1, b2, b3]) :
    RPMC_ReadCounter s = b0 * 2 ^ 24 + b1 * 2 ^ 16 + b2 * 2 ^ 8 + b3 ∧
    RPMC_ReadCounter s < 2 ^ 32 ∧
    ∀ (dev : Device) (f : Nat) (s0 : State), f ≠ 0 →
      ∃ (r0 r1 st : Nat) (tag : List Nat) (c0 c1 c2 c3 : Nat) (sig : List Nat),
        tag.length = 12 ∧ sig.length = 32 ∧
        (RPMC_ReadStatus dev f s0).2.bus = s0.bus ++
          frame ([0x96, 0x00, 0x00] ++ List.replicate 48 0)
            ([r0, r1, st] ++ (tag ++ [c0, c1, c2, c3] ++ sig)) ∧
        RPMC_ReadCounter (RPMC_ReadStatus dev f s0).2 =
          c0 * 2 ^ 24 + c1 * 2 ^ 16 + c2 * 2 ^ 8 + c3 := by
  have hv := readCounter_eq b0 b1 b2 b3 h0 h1 h2 h3 s hs
  refine ⟨hv, by rw [hv]; omega, ?_⟩
  intro dev f s0 hf
  obtain ⟨r0, r1, st, tag, cnt, sig, _, htl, hcl, hsl, _, hcb, _, h⟩ :=
    RPMC_ReadStatus_checkout dev f hf s0
  match cnt, hcl, hcb, h with
  | [c0, c1, c2, c3], _, hcb, h =>
    refine ⟨r0, r1, st, tag, c0, c1, c2, c3, sig, htl, hsl, by rw [h], ?_⟩
    exact readCounter_eq c0 c1 c2 c3 (hcb c0 (by simp)) (hcb c1 (by simp)) (hcb c2 (by simp))
      (hcb c3 (by simp)) _ (by rw [h])

theorem RPMC_ReadCounter_big_endian_witness :
    RPMC_ReadCounter { initState with g_u8Counter := [0xFF, 0xFE, 0x01, 0x02] } =
      0xFF * 2 ^ 24 + 0xFE * 2 ^ 16 + 0x01 * 2 ^ 8 + 0x02 ∧
    RPMC_ReadCounter { initState with g_u8Counter := [0xFF, 0xFE, 0x01, 0x02] } < 2 ^ 32 :=
  match RPMC_ReadCounter_big_endian 0xFF 0xFE 0x01 0x02 (by decide) (by decide) (by decide)
    (by decide) { initState with g_u8Counter := [0xFF, 0xFE, 0x01, 0x02] } rfl with
  | ⟨h, hlt, _⟩ => ⟨h, hlt⟩

/-! ## Busy polling in the drivers -/

/-- Whenever the busy poll returns, the status it returns has bit 0 clear and is the third byte of
the status-only read that ends the bus trace. -/
theorem waitDone_returns (dev : Device) (fuel : Nat) (s : State) (st : Nat) (s' : State)
    (h : waitDone dev 0x01 fuel s = some (st, s')) :
    st % 2 = 0 ∧ ∃ pre r0 r1, s'.bus = pre ++ frame [0x96, 0x00, 0x00] [r0, r1, st] := by
  obtain ⟨n, hn, hb, hst, hs⟩ := waitDone_some dev fuel s st s' h
  obtain ⟨polls, r0, r1, _, _, h0, _, hbus⟩ := poll_trace dev n fuel s hb hn
  refine ⟨by rw [hst]; exact h0, s.bus ++ statusFrames polls, r0, r1, ?_⟩
  rw [hs, hbus, hst]

/-- C10: if the device answers the first `n` status reads after the Write Root Key frame with bit 0
set and the next one with bit 0 clear, `RPMC_WriteRootKey` (allowed more than `n` loop iterations)
returns the status `st` of that last read after exactly `n + 1` status-only reads: `n` that read a
busy status and one that read `st`. And on every device, with no condition on any busy phase:
whenever `RPMC_WriteRootKey`, `RPMC_UpdateHMACKey` or `RPMC_IncreaseCounter` returns, the status
returned has bit 0 clear and is the one read by the status-only read that ends the bus trace. The
busy mask `AF_REG_STATUS_BUSY` is bit 0. -/
theorem RPMC_WriteRootKey_busy_poll (H : List Nat → List Nat → List Nat) (dev : Device)
    (n fuel a : Nat) (r : List Nat) (s : State) :
    (busyPhase dev n (RPMC_WriteRootKey_frame H dev a r s) → n < fuel →
      ∃ (st : Nat) (s' : State) (polls : List (Nat × Nat × Nat)) (r0 r1 : Nat),
        RPMC_WriteRootKey H dev fuel a r s = some (st, s') ∧
        st = statusAt dev n (RPMC_WriteRootKey_frame H dev a r s) ∧ st % 2 = 0 ∧
        polls.length = n ∧ (∀ p ∈ polls, p.2.2 % 2 = 1) ∧
        s'.bus = (RPMC_WriteRootKey_frame H dev a r s).bus ++ statusFrames polls ++
          frame [0x96, 0x00, 0x00] [r0, r1, st]) ∧
    AF_REG_STATUS_BUSY = 1 ∧
    (∀ (fuel0 a0 : Nat) (r0 : List Nat) (s0 : State) (st : Nat) (s' : State),
      RPMC_WriteRootKey H dev fuel0 a0 r0 s0 = some (st, s') →
        st % 2 = 0 ∧ ∃ pre x0 x1, s'.bus = pre ++ frame [0x96, 0x00, 0x00] [x0, x1, st]) ∧
    (∀ (fuel0 a0 : Nat) (r0 sd : List Nat) (s0 : State) (st : Nat) (k : List Nat) (s' : State),
      RPMC_UpdateHMACKey H dev fuel0 a0 r0 sd s0 = some (st, k, s') →
        st % 2 = 0 ∧ ∃ pre x0 x1, s'.bus = pre ++ frame [0x96, 0x00, 0x00] [x0, x1, st]) ∧
    (∀ (fuel0 a0 : Nat) (k t : List Nat) (s0 : State) (st : Nat) (s' : State),
      RPMC_IncreaseCounter H dev fuel0 a0 k t s0 = some (st, s') →
        st % 2 = 0 ∧ ∃ pre x0 x1, s'.bus = pre ++ frame [0x96, 0x00, 0x00] [x0, x1, st]) := by
  refine ⟨?_, rfl, ?_, ?_, ?_⟩
  · intro hb hf
    obtain ⟨polls, r0, r1, hl, hodd, h0, hw, hbus⟩ :=
      poll_trace dev n fuel (RPMC_WriteRootKey_frame H dev a r s) hb hf
    exact ⟨_, _, polls, r0, r1, hw, rfl, h0, hl, hodd, by rw [hbus]⟩
  · intro fuel0 a0 r0 s0 st s' h
    exact waitDone_returns dev fuel0 _ st s' h
  · intro fuel0 a0 r0 sd s0 st k s' h
    unfold RPMC_UpdateHMACKey at h
    cases hw : waitDone dev AF_REG_STATUS_BUSY fuel0
        (RPMC_UpdateHMACKey_frame H dev a0 r0 sd s0).2 with
    | none => simp [hw] at h
    | some res =>
      simp only [hw, Option.some.injEq, Prod.mk.injEq] at h
      obtain ⟨h1, _, h3⟩ := h
      exact waitDone_returns dev fuel0 _ st s' (by rw [← h1, ← h3]; exact hw)
  · intro fuel0 a0 k t s0 st s' h
    unfold RPMC_IncreaseCounter at h
    cases hw : waitDone dev 0x01 fuel0 (RPMC_RequestCounter H dev a0 k t s0) with
    | none => simp [hw] at h
    | some res =>
      simp only [hw] at h
      exact waitDone_returns dev fuel0 _ st s' h

theorem RPMC_WriteRootKey_busy_poll_witness :
    (busyPhase devBusyTwice 2 (RPMC_WriteRootKey_frame toyH devBusyTwice 1 key0 initState) ∧
      2 < 3 ∧
      ∃ (s' : State) (polls : List (Nat × Nat × Nat)) (r0 r1 : Nat),
        RPMC_WriteRootKey toyH devBusyTwice 3 1 key0 initState = some (0x12, s') ∧
        polls.length = 2 ∧
        s'.bus = (RPMC_WriteRootKey_frame toyH devBusyTwice 1 key0 initState).bus ++
          statusFrames polls ++ frame [0x96, 0x00, 0x00] [r0, r1, 0x12]) ∧
    (RPMC_WriteRootKey toyH devStuckAfterWrite 5 1 key0 initState = none ∧
      RPMC_UpdateHMACKey toyH devStuckAfterWrite 1 1 key0 seed0 initState =
        some (0x10, (RPMC_UpdateHMACKey_frame toyH devStuckAfterWrite 1 key0 seed0 initState).1,
          afterReads devStuckAfterWrite 1
            (RPMC_UpdateHMACKey_frame toyH devStuckAfterWrite 1 key0 seed0 initState).2) ∧
      0x10 % 2 = 0) :=
  ⟨⟨by decide, by decide,
    match (RPMC_WriteRootKey_busy_poll toyH devBusyTwice 2 3 1 key0 initState).1
      (by decide) (by decide) with
    | ⟨st, s', polls, r0, r1, hret, hst, _, hl, _, hbus⟩ =>
      have h12 : st = 0x12 := by rw [hst]; decide
      ⟨s', polls, r0, r1, by rw [hret, h12], hl, by rw [hbus, h12]⟩⟩,
   ⟨by decide, by decide,
    ((RPMC_WriteRootKey_busy_poll toyH devStuckAfterWrite 0 0 1 key0 initState).2.2.2.1
      1 1 key0 seed0 initState 0x10
      (RPMC_UpdateHMACKey_frame toyH devStuckAfterWrite 1 key0 seed0 initState).1
      (afterReads devStuckAfterWrite 1
        (RPMC_UpdateHMACKey_frame toyH devStuckAfterWrite 1 key0 seed0 initState).2)
      (by decide)).1⟩⟩

/-! ## Root key derivation -/

/-- C11: for an identity `id` of `n` bytes, `RPMC_CreateRootKey` outputs the 32-byte digest computed
with the identity as key and, as message, the fixed 32-byte tag made of the seven ASCII bytes of
"Nuvoton" followed by 25 zero bytes. The output is a function of the identity alone, so two calls
with the same identity give the same root key; and the roles are not exchanged: for a digest
function that depends on its key only, the result differs from the one with key and message
swapped. -/
theorem RPMC_CreateRootKey_eq (H : List Nat → List Nat → List Nat) (id : List Nat) (n : Nat)
    (hn : id.length = n) :
    RPMC_CreateRootKey H id n =
      HMAC_SHA256 H id n ([0x4E, 0x75, 0x76, 0x6F, 0x74, 0x6F, 0x6E] ++ List.replicate 25 0) 32 ∧
    RPMC_CreateRootKey H id n =
      (readBuf (H id ([0x4E, 0x75, 0x76, 0x6F, 0x74, 0x6F, 0x6E] ++ List.replicate 25 0)) 32).map
        u8 ∧
    (RPMC_CreateRootKey H id n).length = 32 ∧
    [0x4E, 0x75, 0x76, 0x6F, 0x74, 0x6F, 0x6E] =
      ['N', 'u', 'v', 'o', 't', 'o', 'n'].map Char.toNat ∧
    ([0x4E, 0x75, 0x76, 0x6F, 0x74, 0x6F, 0x6E] ++ List.replicate 25 0).length = 32 ∧
    (∀ (id2 : List Nat) (n2 : Nat), id2 = id → n2 = n →
      RPMC_CreateRootKey H id2 n2 = RPMC_CreateRootKey H id n) ∧
    RPMC_CreateRootKey (fun key _ => key) [0x01] 1 ≠
      HMAC_SHA256 (fun key _ => key)
        ([0x4E, 0x75, 0x76, 0x6F, 0x74, 0x6F, 0x6E] ++ List.replicate 25 0) 32 [0x01] 1 := by
  have hD : ((((((((List.replicate 32 0).set 0 (u8 'N'.toNat)).set 1 (u8 'u'.toNat)).set 2
      (u8 'v'.toNat)).set 3 (u8 'o'.toNat)).set 4 (u8 't'.toNat)).set 5 (u8 'o'.toNat)).set 6
      (u8 'n'.toNat)) = [0x4E, 0x75, 0x76, 0x6F, 0x74, 0x6F, 0x6E] ++ List.replicate 25 0 := by
    decide
  have h1 : RPMC_CreateRootKey H id n =
      HMAC_SHA256 H id n ([0x4E, 0x75, 0x76, 0x6F, 0x74, 0x6F, 0x6E] ++ List.replicate 25 0) 32 := by
    unfold RPMC_CreateRootKey
    simp only [hD]
  refine ⟨h1, ?_, ?_, by decide, by decide, ?_, by decide⟩
  · rw [h1]
    unfold HMAC_SHA256
    rw [readBuf_of_length id n hn,
      readBuf_of_length ([0x4E, 0x75, 0x76, 0x6F, 0x74, 0x6F, 0x6E] ++ List.replicate 25 0) 32
        (by decide)]
  · rw [h1]; exact HMAC_SHA256_length H id n _ 32
  · intro id2 n2 hid hn2
    rw [hid, hn2]

theorem RPMC_CreateRootKey_eq_witness :
    uid0.length = 8 ∧
    RPMC_CreateRootKey toyH uid0 8 =
      HMAC_SHA256 toyH uid0 8
        ([0x4E, 0x75, 0x76, 0x6F, 0x74, 0x6F, 0x6E] ++ List.replicate 25 0) 32 :=
  ⟨by decide, (RPMC_CreateRootKey_eq toyH uid0 8 (by decide)).1⟩

/-! ## The caller's tag in Challenge -/

/-- The value `RPMC_Challenge` returns once the device is ready: the comparison of the digest over
the checked-out tag and counter with the checked-out signature. -/
theorem challenge_result (H : List Nat → List Nat → List Nat) (dev : Device)
    (fuel n a : Nat) (k t : List Nat) (s : State)
    (hbusy : busyPhase dev n (RPMC_RequestCounter H dev a k t s)) (hfuel : n < fuel) :
    RPMC_Challenge H dev fuel a k t s =
      some (memcmp
        (HMAC_SHA256 H k 32
          ((RPMC_ReadStatus dev 1
              (afterReads dev (n + 1) (RPMC_RequestCounter H dev a k t s))).2.g_u8Tag ++
            (RPMC_ReadStatus dev 1
              (afterReads dev (n + 1) (RPMC_RequestCounter H dev a k t s))).2.g_u8Counter) 16)
        (RPMC_ReadStatus dev 1
          (afterReads dev (n + 1) (RPMC_RequestCounter H dev a k t s))).2.g_u8Signature 32,
        (RPMC_ReadStatus dev 1
          (afterReads dev (n + 1) (RPMC_RequestCounter H dev a k t s))).2) := by
  obtain ⟨r0, r1, st, tag, cnt, sig, _, htl, hcl, _, _, _, _, hchk⟩ :=
    RPMC_ReadStatus_checkout dev 1 (by decide)
      (afterReads dev (n + 1) (RPMC_RequestCounter H dev a k t s))
  unfold RPMC_Challenge
  simp only [waitDone_busy_of_busyPhase dev n fuel _ hbusy hfuel, hchk,
    DEF_TAG_LEN, DEF_COUNTER_LEN, readBuf_of_length _ 12 htl, readBuf_of_length _ 4 hcl]

/-- C12: `RPMC_Challenge` does not compare the checked-out tag with the caller's tag. Take two calls
with the same key and counter address and caller tags `t1` and `t2`; if in both runs the busy phase
ends and the checkout read stores the same tag, counter and signature, both calls return the same
result. Consequently, when the checked-out signature is the digest of the key over the
checked-out tag and counter, both calls return 0 (match), also the one whose caller tag differs
from the checked-out tag. -/
theorem RPMC_Challenge_ignores_caller_tag (H : List Nat → List Nat → List Nat) (dev : Device)
    (fuel n1 n2 a : Nat) (k t1 t2 : List Nat) (s : State)
    (hb1 : busyPhase dev n1 (RPMC_RequestCounter H dev a k t1 s)) (hf1 : n1 < fuel)
    (hb2 : busyPhase dev n2 (RPMC_RequestCounter H dev a k t2 s)) (hf2 : n2 < fuel)
    (htag : (RPMC_ReadStatus dev 1
        (afterReads dev (n1 + 1) (RPMC_RequestCounter H dev a k t1 s))).2.g_u8Tag =
      (RPMC_ReadStatus dev 1
        (afterReads dev (n2 + 1) (RPMC_RequestCounter H dev a k t2 s))).2.g_u8Tag)
    (hcnt : (RPMC_ReadStatus dev 1
        (afterReads dev (n1 + 1) (RPMC_RequestCounter H dev a k t1 s))).2.g_u8Counter =
      (RPMC_ReadStatus dev 1
        (afterReads dev (n2 + 1) (RPMC_RequestCounter H dev a k t2 s))).2.g_u8Counter)
    (hsig : (RPMC_ReadStatus dev 1
        (afterReads dev (n1 + 1) (RPMC_RequestCounter H dev a k t1 s))).2.g_u8Signature =
      (RPMC_ReadStatus dev 1
        (afterReads dev (n2 + 1) (RPMC_RequestCounter H dev a k t2 s))).2.g_u8Signature) :
    (∃ (res : Int) (s1 s2 : State),
      RPMC_Challenge H dev fuel a k t1 s = some (res, s1) ∧
      RPMC_Challenge H dev fuel a k t2 s = some (res, s2) ∧
      s1.g_u8Tag = s2.g_u8Tag) ∧
    ((RPMC_ReadStatus dev 1
        (afterReads dev (n1 + 1) (RPMC_RequestCounter H dev a k t1 s))).2.g_u8Signature =
      HMAC_SHA256 H k 32
        ((RPMC_ReadStatus dev 1
            (afterReads dev (n1 + 1) (RPMC_RequestCounter H dev a k t1 s))).2.g_u8Tag ++
          (RPMC_ReadStatus dev 1
            (afterReads dev (n1 + 1) (RPMC_RequestCounter H dev a k t1 s))).2.g_u8Counter) 16 →
      ∃ (s1 s2 : State),
        RPMC_Challenge H dev fuel a k t1 s = some (0, s1) ∧
        RPMC_Challenge H dev fuel a k t2 s = some (0, s2) ∧
        s1.g_u8Tag = s2.g_u8Tag) := by
  have e1 := challenge_result H dev fuel n1 a k t1 s hb1 hf1
  have e2 := challenge_result H dev fuel n2 a k t2 s hb2 hf2
  rw [← htag, ← hcnt, ← hsig] at e2
  refine ⟨⟨_, _, _, e1, e2, htag⟩, ?_⟩
  intro hmatch
  obtain ⟨res1, s1, hret1, hs1, _, _, _, hiff1, _⟩ :=
    challenge_spec H dev fuel n1 a k t1 s hb1 hf1
  obtain ⟨res2, s2, hret2, hs2, _, _, _, hiff2, _⟩ :=
    challenge_spec H dev fuel n2 a k t2 s hb2 hf2
  have h1 : res1 = 0 := by
    rw [hiff1, hs1]
    exact hmatch
  have h2 : res2 = 0 := by
    rw [hiff2, hs2, ← htag, ← hcnt, ← hsig]
    exact hmatch
  refine ⟨s1, s2, by rw [hret1, h1], by rw [hret2, h2], ?_⟩
  rw [hs1, hs2]
  exact htag

theorem RPMC_Challenge_ignores_caller_tag_witness :
    (busyPhase devMatch 1 (RPMC_RequestCounter toyH devMatch 1 key0 tag0 initState) ∧
      busyPhase devMatch 1 (RPMC_RequestCounter toyH devMatch 1 key0 tag1 initState)) ∧
    ((RPMC_ReadStatus devMatch 1 (afterReads devMatch (1 + 1)
        (RPMC_RequestCounter toyH devMatch 1 key0 tag1 initState))).2.g_u8Tag = tag0 ∧
      tag1 ≠ tag0) ∧
    ∃ (s1 s2 : State),
      RPMC_Challenge toyH devMatch 4 1 key0 tag0 initState = some (0, s1) ∧
      RPMC_Challenge toyH devMatch 4 1 key0 tag1 initState = some (0, s2) ∧
      s1.g_u8Tag = s2.g_u8Tag :=
  ⟨by decide, by decide,
    (RPMC_Challenge_ignores_caller_tag toyH devMatch 4 1 1 1 key0 tag0 tag1 initState
      (by decide) (by decide) (by decide) (by decide) (by decide) (by decide) (by decide)).2
      (by decide)⟩

end Rpmc
